import Mathlib

/-!
Verification development for the Jade hardware-wallet signing core
(sign_liquid_tx.c, keychain.c, network.c, event.c).

Shallow embedding conventions:
  - machine bytes are `Nat` values (each < 256 where relevant), buffers are `List Nat`;
  - C functions returning a status plus out-parameters become Lean functions
    returning `Option`/`Except`/pairs;
  - external cryptographic primitives (libwally, mbedtls, the wallet/keychain
    derivation layer) are uninterpreted function parameters collected in `Env`;
  - a `JADE_ASSERT` is modelled as a guard: the function returns `none` when
    the asserted condition fails (a fatal crash in the firmware).
-/

namespace Jade

/-- Byte buffers are lists of naturals (each entry one byte). -/
abbrev Bytes := List Nat

/-- Embedding of `value_to_le` (sign_liquid_tx.c): serialise a uint32 value
into 4 little-endian bytes. -/
def value_to_le (val : Nat) : Bytes :=
  [val % 256, val / 256 % 256, val / 256 ^ 2 % 256, val / 256 ^ 3 % 256]

/-- Little-endian byte serialisation of a uint64 value, as produced by the
`memcpy(p, &commitments->value, sizeof(uint64_t))` on the little-endian
ESP32 target in `check_trusted_commitment_valid`. -/
def u64_to_le (val : Nat) : Bytes :=
  [val % 256, val / 256 % 256, val / 256 ^ 2 % 256, val / 256 ^ 3 % 256,
   val / 256 ^ 4 % 256, val / 256 ^ 5 % 256, val / 256 ^ 6 % 256, val / 256 ^ 7 % 256]

/-! ## Network policy table (network.c)

The `TAG_*` network-name constants come from a header that is not among the
given sources; only their distinctness matters to the lookup functions.
The values below are the strings used by the firmware protocol. -/

def TAG_MAINNET : String := "mainnet"

def TAG_LIQUID : String := "liquid"

def TAG_TESTNET : String := "testnet"

def TAG_TESTNETLIQUID : String := "testnet-liquid"

def TAG_LOCALTEST : String := "localtest"

def TAG_LOCALTESTLIQUID : String := "localtest-liquid"

/-- Embedding of `isValidNetwork` (network.c): true exactly for the six known
network tags.  (The C `NULL` argument case cannot arise for a Lean `String`.) -/
def isValidNetwork (network : String) : Bool :=
  network == TAG_MAINNET || network == TAG_LIQUID || network == TAG_TESTNET
    || network == TAG_TESTNETLIQUID || network == TAG_LOCALTEST || network == TAG_LOCALTESTLIQUID

/-- Body of `isTestNetwork` (network.c) after its `JADE_ASSERT(isValidNetwork)`. -/
def isTestNetworkB (network : String) : Bool :=
  network == TAG_TESTNET || network == TAG_TESTNETLIQUID || network == TAG_LOCALTEST
    || network == TAG_LOCALTESTLIQUID

/-- Embedding of `isTestNetwork` (network.c); `none` models the fatal
`JADE_ASSERT(isValidNetwork(network))`. -/
def isTestNetwork (network : String) : Option Bool :=
  if isValidNetwork network then some (isTestNetworkB network) else none

/-- Body of `isLiquidNetwork` (network.c) after its assert. -/
def isLiquidNetworkB (network : String) : Bool :=
  network == TAG_LIQUID || network == TAG_TESTNETLIQUID || network == TAG_LOCALTESTLIQUID

/-- Embedding of `isLiquidNetwork` (network.c); `none` models the fatal
`JADE_ASSERT(isValidNetwork(network))`. -/
def isLiquidNetwork (network : String) : Option Bool :=
  if isValidNetwork network then some (isLiquidNetworkB network) else none

/-- `SIZE_MAX` on the 32-bit ESP32 target. -/
def SIZE_MAX : Nat := 2 ^ 32 - 1

/-- Embedding of `networkToMinAllowedCsvBlocks` (network.c); `none` models the
fatal assert on an invalid network. -/
def networkToMinAllowedCsvBlocks (network : String) : Option Nat :=
  if isValidNetwork network then
    some (if network == TAG_MAINNET then 25920
      else if network == TAG_LIQUID then 65535
      else if network == TAG_TESTNET || network == TAG_LOCALTEST then 144
      else if network == TAG_TESTNETLIQUID || network == TAG_LOCALTESTLIQUID then 1440
      else SIZE_MAX)
  else none

/-! Public libwally / BIP32 constants (headers outside the given sources). -/

def WALLY_NETWORK_BITCOIN_MAINNET : Nat := 0x01

def WALLY_NETWORK_BITCOIN_TESTNET : Nat := 0x02

def WALLY_NETWORK_LIQUID : Nat := 0x03

def WALLY_NETWORK_LIQUID_REGTEST : Nat := 0x04

def WALLY_NETWORK_LIQUID_TESTNET : Nat := 0x05

def BIP32_VER_MAIN_PRIVATE : Nat := 0x0488ADE4

def BIP32_VER_TEST_PRIVATE : Nat := 0x04358394

def WALLY_ADDRESS_VERSION_P2PKH_MAINNET : Nat := 0x00

def WALLY_ADDRESS_VERSION_P2PKH_TESTNET : Nat := 0x6F

def WALLY_ADDRESS_VERSION_P2PKH_LIQUID : Nat := 0x39

def WALLY_ADDRESS_VERSION_P2PKH_LIQUID_TESTNET : Nat := 0x24

def WALLY_ADDRESS_VERSION_P2PKH_LIQUID_REGTEST : Nat := 0xEB

def WALLY_ADDRESS_VERSION_P2SH_MAINNET : Nat := 0x05

def WALLY_ADDRESS_VERSION_P2SH_TESTNET : Nat := 0xC4

def WALLY_ADDRESS_VERSION_P2SH_LIQUID : Nat := 0x27

def WALLY_ADDRESS_VERSION_P2SH_LIQUID_TESTNET : Nat := 0x13

def WALLY_ADDRESS_VERSION_P2SH_LIQUID_REGTEST : Nat := 0x4B

def WALLY_CA_PREFIX_LIQUID : Nat := 0x0C

def WALLY_CA_PREFIX_LIQUID_TESTNET : Nat := 0x17

def WALLY_CA_PREFIX_LIQUID_REGTEST : Nat := 0x04

/-- Embedding of `networkToId` (network.c). -/
def networkToId (network : String) : Option Nat :=
  if isValidNetwork network then
    some (if network == TAG_MAINNET then WALLY_NETWORK_BITCOIN_MAINNET
      else if network == TAG_TESTNET || network == TAG_LOCALTEST then WALLY_NETWORK_BITCOIN_TESTNET
      else if network == TAG_LIQUID then WALLY_NETWORK_LIQUID
      else if network == TAG_TESTNETLIQUID then WALLY_NETWORK_LIQUID_TESTNET
      else if network == TAG_LOCALTESTLIQUID then WALLY_NETWORK_LIQUID_REGTEST
      else 0)
  else none

/-- Embedding of `networkToVersion` (network.c). -/
def networkToVersion (network : String) : Option Nat :=
  if isValidNetwork network then
    some (if network == TAG_MAINNET || network == TAG_LIQUID then BIP32_VER_MAIN_PRIVATE
      else if isTestNetworkB network then BIP32_VER_TEST_PRIVATE
      else 0)
  else none

/-- Embedding of `networkToP2PKHPrefix` (network.c). -/
def networkToP2PKHPrefixByte (network : String) : Option Nat :=
  if isValidNetwork network then
    some (if network == TAG_MAINNET then WALLY_ADDRESS_VERSION_P2PKH_MAINNET
      else if network == TAG_TESTNET || network == TAG_LOCALTEST then
        WALLY_ADDRESS_VERSION_P2PKH_TESTNET
      else if network == TAG_LIQUID then WALLY_ADDRESS_VERSION_P2PKH_LIQUID
      else if network == TAG_TESTNETLIQUID then WALLY_ADDRESS_VERSION_P2PKH_LIQUID_TESTNET
      else if network == TAG_LOCALTESTLIQUID then WALLY_ADDRESS_VERSION_P2PKH_LIQUID_REGTEST
      else 0)
  else none

/-- Embedding of `networkToP2SHPrefix` (network.c). -/
def networkToP2SHPrefixByte (network : String) : Option Nat :=
  if isValidNetwork network then
    some (if network == TAG_MAINNET then WALLY_ADDRESS_VERSION_P2SH_MAINNET
      else if network == TAG_TESTNET || network == TAG_LOCALTEST then
        WALLY_ADDRESS_VERSION_P2SH_TESTNET
      else if network == TAG_LIQUID then WALLY_ADDRESS_VERSION_P2SH_LIQUID
      else if network == TAG_TESTNETLIQUID then WALLY_ADDRESS_VERSION_P2SH_LIQUID_TESTNET
      else if network == TAG_LOCALTESTLIQUID then WALLY_ADDRESS_VERSION_P2SH_LIQUID_REGTEST
      else 0)
  else none

/-- Embedding of `networkToBech32Hrp` (network.c); the inner `Option` models the
nullable C string result (`none` = the NULL fallback branch). -/
def networkToBech32Hrp (network : String) : Option (Option String) :=
  if isValidNetwork network then
    some (if network == TAG_MAINNET then some "bc"
      else if network == TAG_TESTNET then some "tb"
      else if network == TAG_LOCALTEST then some "bcrt"
      else if network == TAG_LIQUID then some "ex"
      else if network == TAG_TESTNETLIQUID then some "tex"
      else if network == TAG_LOCALTESTLIQUID then some "ert"
      else none)
  else none

/-- Embedding of `networkToCAPrefix` (network.c); `none` models the fatal
`JADE_ASSERT(isLiquidNetwork(network))` (which itself asserts validity). -/
def networkToCAPrefixByte (network : String) : Option Nat :=
  if isValidNetwork network && isLiquidNetworkB network then
    some (if network == TAG_LIQUID then WALLY_CA_PREFIX_LIQUID
      else if network == TAG_TESTNETLIQUID then WALLY_CA_PREFIX_LIQUID_TESTNET
      else if network == TAG_LOCALTESTLIQUID then WALLY_CA_PREFIX_LIQUID_REGTEST
      else 0)
  else none

/-- Embedding of `networkToBlech32Hrp` (network.c); outer `none` = fatal assert,
inner `none` = the NULL fallback branch. -/
def networkToBlech32Hrp (network : String) : Option (Option String) :=
  if isValidNetwork network && isLiquidNetworkB network then
    some (if network == TAG_LIQUID then some "lq"
      else if network == TAG_TESTNETLIQUID then some "tlq"
      else if network == TAG_LOCALTESTLIQUID then some "el"
      else none)
  else none

/-- Embedding of `networkGetPolicyAsset` (network.c); outer `none` = fatal
assert, inner `none` = the NULL fallback branch. -/
def networkGetPolicyAsset (network : String) : Option (Option String) :=
  if isValidNetwork network && isLiquidNetworkB network then
    some (if network == TAG_LIQUID then
        some "6f0279e9ed041c3d710a9f57d0c02928416460c4b722ae3457a11eec381c526d"
      else if network == TAG_TESTNETLIQUID then
        some "144c654344aa716d6f3abcc1ca90e5641e4e2a7f633bc09fe3baf64585819a49"
      else if network == TAG_LOCALTESTLIQUID then
        some "5ac9f65c0efcc4775e0baec4ec03abdde22473cd3cf33c0419ca290e0751b225"
      else none)
  else none

/-! ## Keychain network-type restriction (keychain.c) -/

/-- Embedding of `network_type_t` (keychain.h values used by keychain.c). -/
inductive network_type_t where
  | NONE
  | TEST
  | MAIN
deriving DecidableEq

/-- The test/main classification of a (valid) network string, as computed by
`isTestNetwork(network) ? NETWORK_TYPE_TEST : NETWORK_TYPE_MAIN` in keychain.c. -/
def network_type_of (network : String) : network_type_t :=
  if isTestNetworkB network then .TEST else .MAIN

/-- The keychain globals that `keychain_set_network_type_restriction` and
`keychain_is_network_type_consistent` read and write (keychain.c statics plus
the persisted storage value). -/
structure KeychainState where
  network_type_restriction : network_type_t
  keychain_data : Bool
  keychain_temporary : Bool
  has_encrypted_blob : Bool
  storage_restriction : network_type_t
deriving DecidableEq

/-- Embedding of `keychain_has_pin` (keychain.c). -/
def keychain_has_pin (st : KeychainState) : Bool := st.has_encrypted_blob

/-- Embedding of `keychain_has_temporary` (keychain.c); `none` models the fatal
`JADE_ASSERT(!keychain_temporary || keychain_data)`. -/
def keychain_has_temporary (st : KeychainState) : Option Bool :=
  if st.keychain_temporary && !st.keychain_data then none else some st.keychain_temporary

/-- Embedding of `keychain_is_network_type_consistent` (keychain.c); `none`
models the fatal `JADE_ASSERT(isValidNetwork(network))`. -/
def keychain_is_network_type_consistent (st : KeychainState) (network : String) : Option Bool :=
  if isValidNetwork network then
    some (st.network_type_restriction == .NONE
      || network_type_of network == st.network_type_restriction)
  else none

/-- Embedding of `keychain_set_network_type_restriction` (keychain.c); `none`
models a fatal assert (inconsistent network, invalid network, or the
`keychain_has_temporary` invariant assert). -/
def keychain_set_network_type_restriction (st : KeychainState) (network : String) :
    Option KeychainState :=
  match keychain_is_network_type_consistent st network with
  | none => none
  | some false => none
  | some true =>
    if st.network_type_restriction == .NONE then
      let network_type := network_type_of network
      match keychain_has_temporary st with
      | none => none
      | some temp =>
        let st1 := if keychain_has_pin st && !temp then
            { st with storage_restriction := network_type } else st
        if st1.keychain_data then
          some { st1 with network_type_restriction := network_type }
        else some st1
    else some st

/-- A sequence of `keychain_set_network_type_restriction` calls, each required
to pass its asserts. -/
def apply_restriction_calls (st : KeychainState) : List String → Option KeychainState
  | [] => some st
  | n :: rest =>
    match keychain_set_network_type_restriction st n with
    | none => none
    | some st2 => apply_restriction_calls st2 rest

/-! ## Data model for the signing core (sign_liquid_tx.c) -/

def SHA256_LEN : Nat := 32

def HMAC_SHA256_LEN : Nat := 32

def ASSET_GENERATOR_LEN : Nat := 33

def ASSET_COMMITMENT_LEN : Nat := 33

def ASSET_TAG_LEN : Nat := 32

def WALLY_TXHASH_LEN : Nat := 32

def WALLY_HOST_COMMITMENT_LEN : Nat := 32

/-- One parsed transaction input (`struct wally_tx_input`): the previous-output
txid and index (the only fields sign_liquid_tx.c reads). -/
structure TxInput where
  txhash : Bytes
  index : Nat
deriving DecidableEq, Inhabited

/-- One parsed transaction output (`struct wally_tx_output`): asset bytes,
value bytes and the (nullable) spending script.  `script = none` models a NULL
script pointer. -/
structure TxOutput where
  asset : Bytes
  value : Bytes
  script : Option Bytes
deriving DecidableEq, Inhabited

/-- A parsed transaction (`struct wally_tx`), inputs and outputs in order. -/
structure Tx where
  inputs : List TxInput
  outputs : List TxOutput
deriving DecidableEq, Inhabited

/-- A host-supplied trusted-commitment record (`commitment_t`). -/
structure Commitment where
  have_commitments : Bool
  asset_id : Bytes
  value : Nat
  blinding_key : Bytes
  asset_generator : Bytes
  value_commitment : Bytes
  hmac : Bytes
deriving DecidableEq, Inhabited

/-- The two blinding-factor kinds passed to `wallet_get_blinding_factor`
(`ASSET_BLINDING_FACTOR` / `VALUE_BLINDING_FACTOR`). -/
inductive BlindingFactorKind where
  | asset_bf
  | value_bf
deriving DecidableEq

/-- The external collaborators of the signing core: keychain derivations,
libwally primitives, mbedtls hashing, UI confirmations and externally
validated data.  Each fallible C primitive becomes an `Option`-returning
function (`none` = the primitive reported failure). -/
structure Env where
  /-- `wallet_get_blinding_factor(hash_prevouts, idx, kind)`. -/
  wallet_get_blinding_factor : Bytes → Nat → BlindingFactorKind → Option Bytes
  /-- `wally_asset_generator_from_bytes(asset_id, abf)`. -/
  wally_asset_generator_from_bytes : Bytes → Bytes → Option Bytes
  /-- `wally_asset_value_commitment(value, vbf, generator)`. -/
  wally_asset_value_commitment : Nat → Bytes → Bytes → Option Bytes
  /-- `wallet_hmac_with_master_key(data)`. -/
  wallet_hmac_with_master_key : Bytes → Option Bytes
  /-- SHA-256 of a byte buffer (mbedtls_sha256 / wally_sha256 compute the same
  function; the mbedtls streaming context is modelled as buffer accumulation
  plus this function at finalisation). -/
  sha256 : Bytes → Bytes
  /-- `wally_tx_confidential_value_to_satoshi` on an unblinded value field. -/
  wally_tx_confidential_value_to_satoshi : Bytes → Nat
  /-- `wallet_get_elements_tx_input_hash(tx, index, is_witness, script, value_commitment?)`
  (the tx is the session transaction). -/
  wallet_get_elements_tx_input_hash : Nat → Bool → Bytes → Option Bytes → Option Bytes
  /-- `wallet_get_signer_commitment(signature_hash, path, ae_host_commitment)`. -/
  wallet_get_signer_commitment : Bytes → List Nat → Bytes → Option Bytes
  /-- `get_script_flavour` (defined in sign_tx.c, outside the given sources). -/
  get_script_flavour : Bytes → Nat
  /-- `update_aggregate_scripts_flavour` (defined in sign_tx.c, outside the
  given sources). -/
  update_aggregate_scripts_flavour : Nat → Nat → Nat
  /-- Result of `validate_change_paths` (defined in sign_tx.c, outside the
  given sources) when a change array is present. -/
  validate_change_paths_ok : Bool
  /-- `mbedtls_sha256_starts_ret` returned 0. -/
  sha_starts_ok : Bool
  /-- The keychain network-type restriction global read by
  `CHECK_NETWORK_CONSISTENT`. -/
  network_type_restriction : network_type_t
  /-- The user accepted at the output-confirmation checkpoint
  (`outputs_ret == ESP_OK && ev_id == SIGN_TX_ACCEPT_OUTPUTS`). -/
  accept_outputs : Bool
  /-- The user accepted at the fee-confirmation checkpoint
  (`fee_ret && ev_id == BTN_ACCEPT_SIGNATURE`). -/
  accept_fee : Bool

/-! ## Commitment verifier (check_trusted_commitment_valid) -/

/-- Embedding of `check_trusted_commitment_valid` (sign_liquid_tx.c).  Returns
the error message (`none` = success, mirroring the C bool result plus
`*errmsg`) together with the updated `found_odd_vbf` flag. -/
def check_trusted_commitment_valid (env : Env) (hash_prevouts : Bytes) (idx : Nat)
    (txoutput : TxOutput) (commitments : Commitment) (found_odd_vbf : Bool) :
    Option String × Bool :=
  match env.wallet_get_blinding_factor hash_prevouts idx .asset_bf with
  | none => (some "Failed to verify asset_generator from commitments data", found_odd_vbf)
  | some abf =>
    match env.wally_asset_generator_from_bytes commitments.asset_id abf with
    | none => (some "Failed to verify asset_generator from commitments data", found_odd_vbf)
    | some generator_tmp =>
      if commitments.asset_generator != generator_tmp || txoutput.asset != generator_tmp then
        (some "Failed to verify asset_generator from commitments data", found_odd_vbf)
      else
        match env.wallet_get_blinding_factor hash_prevouts idx .value_bf with
        | none => (some "Failed to verify value_commitment from commitments data", found_odd_vbf)
        | some vbf =>
          match env.wally_asset_value_commitment commitments.value vbf generator_tmp with
          | none =>
            (some "Failed to verify value_commitment from commitments data", found_odd_vbf)
          | some commitment_tmp =>
            -- here we allow AT MOST one vbf/value-commitment to be unexpected
            let mismatch := commitments.value_commitment != commitment_tmp
              || txoutput.value != commitment_tmp
            if mismatch && found_odd_vbf then
              (some "Failed to verify value_commitment from commitments data", found_odd_vbf)
            else
              let found2 := found_odd_vbf || mismatch
              -- re-compute and check hmac of the provided trusted commitment
              let signed_blob := commitments.asset_generator ++ commitments.value_commitment
                ++ commitments.asset_id ++ u64_to_le commitments.value
              match env.wallet_hmac_with_master_key signed_blob with
              | none => (some "Failed to verify hmac from commitments data", found2)
              | some our_hmac =>
                if our_hmac != commitments.hmac then
                  (some "Failed to verify hmac from commitments data", found2)
                else (none, found2)

/-- The asset generator recomputed from the derived asset blinding factor
(`wallet_get_blinding_factor` + `wally_asset_generator_from_bytes`). -/
def recomputed_generator (env : Env) (hash_prevouts : Bytes) (idx : Nat)
    (commitments : Commitment) : Option Bytes :=
  match env.wallet_get_blinding_factor hash_prevouts idx .asset_bf with
  | none => none
  | some abf => env.wally_asset_generator_from_bytes commitments.asset_id abf

/-- The per-output asset-generator check: the recomputed generator exists and
matches both the trusted commitment and the transaction output bytes. -/
def generator_check (env : Env) (hash_prevouts : Bytes) (idx : Nat) (txoutput : TxOutput)
    (commitments : Commitment) : Bool :=
  match recomputed_generator env hash_prevouts idx commitments with
  | none => false
  | some g => commitments.asset_generator == g && txoutput.asset == g

/-- The value commitment recomputed from the derived value blinding factor and
the recomputed generator. -/
def recomputed_value_commitment (env : Env) (hash_prevouts : Bytes) (idx : Nat)
    (commitments : Commitment) : Option Bytes :=
  match recomputed_generator env hash_prevouts idx commitments,
      env.wallet_get_blinding_factor hash_prevouts idx .value_bf with
  | some g, some vbf => env.wally_asset_value_commitment commitments.value vbf g
  | _, _ => none

/-- The recomputed value commitment exists but differs from the trusted
commitment value-commitment bytes or from the transaction output value bytes. -/
def vbf_mismatch (env : Env) (hash_prevouts : Bytes) (idx : Nat) (txoutput : TxOutput)
    (commitments : Commitment) : Bool :=
  match recomputed_value_commitment env hash_prevouts idx commitments with
  | none => false
  | some c => commitments.value_commitment != c || txoutput.value != c

/-- The trusted-commitment integrity HMAC recomputed with the master key over
`asset_generator ++ value_commitment ++ asset_id ++ value(le64)` matches the
stored HMAC. -/
def hmac_check (env : Env) (commitments : Commitment) : Bool :=
  match env.wallet_hmac_with_master_key (commitments.asset_generator
      ++ commitments.value_commitment ++ commitments.asset_id
      ++ u64_to_le commitments.value) with
  | none => false
  | some h => h == commitments.hmac

/-- Characterisation of `check_trusted_commitment_valid` in terms of the three
independent checks and the one-odd-vbf policy. -/
theorem check_trusted_commitment_valid_char (env : Env) (hp : Bytes) (idx : Nat)
    (txo : TxOutput) (cm : Commitment) (flag : Bool) :
    check_trusted_commitment_valid env hp idx txo cm flag =
      if generator_check env hp idx txo cm = false then
        (some "Failed to verify asset_generator from commitments data", flag)
      else if (recomputed_value_commitment env hp idx cm).isNone then
        (some "Failed to verify value_commitment from commitments data", flag)
      else if vbf_mismatch env hp idx txo cm && flag then
        (some "Failed to verify value_commitment from commitments data", flag)
      else if hmac_check env cm = false then
        (some "Failed to verify hmac from commitments data", flag || vbf_mismatch env hp idx txo cm)
      else (none, flag || vbf_mismatch env hp idx txo cm) := by
  unfold check_trusted_commitment_valid generator_check recomputed_value_commitment
    vbf_mismatch hmac_check recomputed_generator
  cases habf : env.wallet_get_blinding_factor hp idx .asset_bf with
  | none => simp [habf]
  | some abf =>
    cases hgen : env.wally_asset_generator_from_bytes cm.asset_id abf with
    | none => simp [habf, hgen]
    | some g =>
      by_cases h1 : cm.asset_generator = g
      · subst h1
        by_cases h2 : txo.asset = cm.asset_generator
        · cases hvbf : env.wallet_get_blinding_factor hp idx .value_bf with
          | none =>
            simp [recomputed_value_commitment, recomputed_generator, habf, hgen, hvbf, h2]
          | some vbf =>
            cases hvc : env.wally_asset_value_commitment cm.value vbf cm.asset_generator with
            | none =>
              simp [recomputed_value_commitment, recomputed_generator, habf, hgen, hvbf, hvc, h2]
            | some c =>
              by_cases hm1 : cm.value_commitment = c
              · subst hm1
                by_cases hm2 : txo.value = cm.value_commitment
                · cases hh : env.wallet_hmac_with_master_key (cm.asset_generator
                      ++ (cm.value_commitment ++ (cm.asset_id ++ u64_to_le cm.value))) with
                  | none =>
                    simp [recomputed_value_commitment, recomputed_generator, habf, hgen, hvbf,
                      hvc, hh, h2, hm2]
                  | some hm =>
                    by_cases heq : hm = cm.hmac <;>
                      simp [recomputed_value_commitment, recomputed_generator, habf, hgen, hvbf,
                        hvc, hh, h2, hm2, heq]
                · cases flag with
                  | true =>
                    simp [recomputed_value_commitment, recomputed_generator, habf, hgen, hvbf,
                      hvc, h2, hm2]
                  | false =>
                    cases hh : env.wallet_hmac_with_master_key (cm.asset_generator
                        ++ (cm.value_commitment ++ (cm.asset_id ++ u64_to_le cm.value))) with
                    | none =>
                      simp [recomputed_value_commitment, recomputed_generator, habf, hgen, hvbf,
                        hvc, hh, h2, hm2]
                    | some hm =>
                      by_cases heq : hm = cm.hmac <;>
                        simp [recomputed_value_commitment, recomputed_generator, habf, hgen,
                          hvbf, hvc, hh, h2, hm2, heq]
              · cases flag with
                | true =>
                  simp [recomputed_value_commitment, recomputed_generator, habf, hgen, hvbf,
                    hvc, h2, hm1]
                | false =>
                  cases hh : env.wallet_hmac_with_master_key (cm.asset_generator
                      ++ (cm.value_commitment ++ (cm.asset_id ++ u64_to_le cm.value))) with
                  | none =>
                    simp [recomputed_value_commitment, recomputed_generator, habf, hgen, hvbf,
                      hvc, hh, h2, hm1]
                  | some hm =>
                    by_cases heq : hm = cm.hmac <;>
                      simp [recomputed_value_commitment, recomputed_generator, habf, hgen, hvbf,
                        hvc, hh, h2, hm1, heq]
        · simp [habf, hgen, h2]
      · simp [habf, hgen, h1]

/-- The value-prefix byte `txoutput->value[0]` of an output (0x01 marks an
unblinded/plaintext value). -/
def value_prefix_byte (txo : TxOutput) : Nat :=
  match txo.value with
  | [] => 0
  | b :: _ => b

/-- The cryptographic re-verification loop of `sign_liquid_tx_process`
(lines 495-509): walk the outputs (paired with their trusted commitments,
indexed from `idx`), skip unblinded outputs (value prefix byte 0x01), and run
`check_trusted_commitment_valid` on the rest, threading the sticky
`found_odd_vbf` flag.  Returns the first error message (or `none`) and the
final flag. -/
def verify_trusted_commitments (env : Env) (hp : Bytes) :
    Nat → List (TxOutput × Commitment) → Bool → Option String × Bool
  | _, [], flag => (none, flag)
  | idx, (txo, cm) :: rest, flag =>
    if value_prefix_byte txo == 1 then verify_trusted_commitments env hp (idx + 1) rest flag
    else
      match check_trusted_commitment_valid env hp idx txo cm flag with
      | (some e, flag2) => (some e, flag2)
      | (none, flag2) => verify_trusted_commitments env hp (idx + 1) rest flag2

/-- Every confidential output in the (indexed) list passes the asset-generator
check, its value-commitment recomputation succeeds, and its integrity HMAC
matches. -/
def output_checks_ok (env : Env) (hp : Bytes) : Nat → List (TxOutput × Commitment) → Bool
  | _, [] => true
  | idx, (txo, cm) :: rest =>
    (value_prefix_byte txo == 1
        || (generator_check env hp idx txo cm
            && (recomputed_value_commitment env hp idx cm).isSome
            && hmac_check env cm))
      && output_checks_ok env hp (idx + 1) rest

/-- The number of confidential outputs in the (indexed) list whose recomputed
value commitment differs from the stored / transaction value-commitment bytes. -/
def mismatch_count (env : Env) (hp : Bytes) : Nat → List (TxOutput × Commitment) → Nat
  | _, [] => 0
  | idx, (txo, cm) :: rest =>
    (if value_prefix_byte txo ≠ 1 ∧ vbf_mismatch env hp idx txo cm = true then 1 else 0)
      + mismatch_count env hp (idx + 1) rest

/-- A successful per-output check passes the generator check. -/
theorem check_ok_generator (env : Env) (hp : Bytes) (idx : Nat) (txo : TxOutput)
    (cm : Commitment) (flag flag2 : Bool)
    (h : check_trusted_commitment_valid env hp idx txo cm flag = (none, flag2)) :
    generator_check env hp idx txo cm = true := by
  rw [check_trusted_commitment_valid_char] at h
  by_cases hg : generator_check env hp idx txo cm = false
  · simp [hg] at h
  · exact Bool.eq_true_of_not_eq_false hg

/-- A successful per-output check updates the sticky flag to `flag || mismatch`,
and can only tolerate a mismatch when the flag was clear. -/
theorem check_ok_flag (env : Env) (hp : Bytes) (idx : Nat) (txo : TxOutput)
    (cm : Commitment) (flag flag2 : Bool)
    (h : check_trusted_commitment_valid env hp idx txo cm flag = (none, flag2)) :
    flag2 = (flag || vbf_mismatch env hp idx txo cm)
      ∧ (vbf_mismatch env hp idx txo cm = true → flag = false) := by
  rw [check_trusted_commitment_valid_char] at h
  by_cases hg : generator_check env hp idx txo cm = false
  · simp [hg] at h
  · by_cases hvc : (recomputed_value_commitment env hp idx cm).isNone
    · simp [hg, hvc] at h
    · by_cases hmf : (vbf_mismatch env hp idx txo cm && flag) = true
      · simp [hg, hvc, hmf] at h
      · by_cases hh : hmac_check env cm = false
        · simp [hg, hvc, hmf, hh] at h
        · simp [hg, hvc, hmf, hh] at h
          refine ⟨h.symm, fun hm => ?_⟩
          cases flag with
          | false => rfl
          | true => simp [hm] at hmf

/-- A per-output check succeeds when all three component checks pass and any
mismatch arrives while the sticky flag is still clear. -/
theorem check_ok_of_checks (env : Env) (hp : Bytes) (idx : Nat) (txo : TxOutput)
    (cm : Commitment) (flag : Bool)
    (hg : generator_check env hp idx txo cm = true)
    (hvc : (recomputed_value_commitment env hp idx cm).isSome)
    (hh : hmac_check env cm = true)
    (hm : vbf_mismatch env hp idx txo cm = true → flag = false) :
    check_trusted_commitment_valid env hp idx txo cm flag
      = (none, flag || vbf_mismatch env hp idx txo cm) := by
  rw [check_trusted_commitment_valid_char]
  have h1 : ¬ generator_check env hp idx txo cm = false := by simp [hg]
  have h2 : ¬ (recomputed_value_commitment env hp idx cm).isNone := by
    intro hn
    rw [Option.isNone_iff_eq_none] at hn
    rw [hn] at hvc
    simp at hvc
  have h3 : ¬ (vbf_mismatch env hp idx txo cm && flag) = true := by
    intro hc
    rw [Bool.and_eq_true] at hc
    rw [hm hc.1] at hc
    exact Bool.false_ne_true hc.2
  have h4 : ¬ hmac_check env cm = false := by simp [hh]
  simp [h1, h2, h3, h4]

/-- If every confidential output passes the generator / recomputation / HMAC
checks and the number of value-commitment mismatches fits the remaining
exception budget, the re-verification loop succeeds. -/
theorem verify_ok_of_checks (env : Env) (hp : Bytes) :
    ∀ (l : List (TxOutput × Commitment)) (idx : Nat) (flag : Bool),
      output_checks_ok env hp idx l = true →
      mismatch_count env hp idx l ≤ (if flag then 0 else 1) →
      (verify_trusted_commitments env hp idx l flag).1 = none := by
  intro l
  induction l with
  | nil => intro idx flag _ _; rfl
  | cons hd rest ih =>
    obtain ⟨txo, cm⟩ := hd
    intro idx flag hok hcnt
    unfold output_checks_ok at hok
    rw [Bool.and_eq_true] at hok
    obtain ⟨hhd, hrest⟩ := hok
    unfold mismatch_count at hcnt
    unfold verify_trusted_commitments
    by_cases hplain : value_prefix_byte txo = 1
    · simp only [hplain, beq_self_eq_true, if_true]
      apply ih _ _ hrest
      simpa [hplain] using hcnt
    · have hcond : (value_prefix_byte txo == 1) = false := by simp [hplain]
      simp only [hcond, Bool.false_eq_true, if_false]
      have hchecks : (generator_check env hp idx txo cm = true
          ∧ (recomputed_value_commitment env hp idx cm).isSome = true)
          ∧ hmac_check env cm = true := by
        simpa [hplain] using hhd
      obtain ⟨⟨hg, hvs⟩, hhm⟩ := hchecks
      by_cases hmis : vbf_mismatch env hp idx txo cm = true
      · have hflag : flag = false := by
          cases flag with
          | false => rfl
          | true => simp [hmis, hplain] at hcnt
        subst hflag
        rw [check_ok_of_checks env hp idx txo cm false hg hvs hhm (fun _ => rfl)]
        simp only [hmis, Bool.false_or]
        apply ih _ _ hrest
        have hz : mismatch_count env hp (idx + 1) rest = 0 := by
          simp only [if_neg, Bool.false_eq_true] at hcnt
          simp [hplain, hmis] at hcnt
          omega
        simp [hz]
      · rw [check_ok_of_checks env hp idx txo cm flag hg hvs hhm (fun h => absurd h hmis)]
        have hm0 : vbf_mismatch env hp idx txo cm = false := by
          cases hb : vbf_mismatch env hp idx txo cm with
          | false => rfl
          | true => exact absurd hb hmis
        simp only [hm0, Bool.or_false]
        apply ih _ _ hrest
        simpa [hplain, hm0] using hcnt

/-- If the value-commitment mismatches among the remaining confidential
outputs exceed the remaining exception budget, the re-verification loop
fails. -/
theorem verify_fails_of_mismatches (env : Env) (hp : Bytes) :
    ∀ (l : List (TxOutput × Commitment)) (idx : Nat) (flag : Bool),
      (if flag then 1 else 2) ≤ mismatch_count env hp idx l →
      (verify_trusted_commitments env hp idx l flag).1.isSome = true := by
  intro l
  induction l with
  | nil =>
    intro idx flag hcnt
    cases flag <;> simp [mismatch_count] at hcnt
  | cons hd rest ih =>
    obtain ⟨txo, cm⟩ := hd
    intro idx flag hcnt
    unfold mismatch_count at hcnt
    unfold verify_trusted_commitments
    by_cases hplain : value_prefix_byte txo = 1
    · simp only [hplain, beq_self_eq_true, if_true]
      apply ih
      simpa [hplain] using hcnt
    · have hcond : (value_prefix_byte txo == 1) = false := by simp [hplain]
      simp only [hcond, Bool.false_eq_true, if_false]
      cases hchk : check_trusted_commitment_valid env hp idx txo cm flag with
      | mk fst snd =>
        cases fst with
        | some e => simp
        | none =>
          simp only
          obtain ⟨hflag2, hmono⟩ := check_ok_flag env hp idx txo cm flag snd hchk
          by_cases hmis : vbf_mismatch env hp idx txo cm = true
          · have hflag : flag = false := hmono hmis
            subst hflag
            subst hflag2
            simp only [hmis, Bool.false_or]
            apply ih
            simp only [hmis] at hcnt
            simp [hplain, hmis] at hcnt ⊢
            omega
          · have hm0 : vbf_mismatch env hp idx txo cm = false := by
              cases hb : vbf_mismatch env hp idx txo cm with
              | false => rfl
              | true => exact absurd hb hmis
            subst hflag2
            simp only [hm0, Bool.or_false]
            apply ih
            simpa [hplain, hm0] using hcnt

/-- If some confidential output in the list fails the asset-generator check,
the re-verification loop fails, whatever the sticky flag state. -/
theorem verify_fails_of_generator (env : Env) (hp : Bytes) :
    ∀ (l : List (TxOutput × Commitment)) (idx : Nat) (flag : Bool) (j : Nat)
      (txo : TxOutput) (cm : Commitment),
      l.get? j = some (txo, cm) →
      ¬ value_prefix_byte txo = 1 →
      generator_check env hp (idx + j) txo cm = false →
      (verify_trusted_commitments env hp idx l flag).1.isSome = true := by
  intro l
  induction l with
  | nil => intro idx flag j txo cm hget _ _; simp at hget
  | cons hd rest ih =>
    obtain ⟨txo0, cm0⟩ := hd
    intro idx flag j txo cm hget hconf hgen
    unfold verify_trusted_commitments
    cases j with
    | zero =>
      simp only [List.get?_cons_zero, Option.some.injEq, Prod.mk.injEq] at hget
      obtain ⟨he1, he2⟩ := hget
      subst he1
      subst he2
      have hcond : (value_prefix_byte txo0 == 1) = false := by simp [hconf]
      simp only [hcond, Bool.false_eq_true, if_false]
      rw [Nat.add_zero] at hgen
      rw [check_trusted_commitment_valid_char]
      simp [hgen]
    | succ k =>
      simp only [List.get?_cons_succ] at hget
      by_cases hplain : value_prefix_byte txo0 = 1
      · simp only [hplain, beq_self_eq_true, if_true]
        have := ih (idx + 1) flag k txo cm hget hconf
        rw [Nat.add_assoc, Nat.add_comm 1 k] at this
        exact this hgen
      · have hcond : (value_prefix_byte txo0 == 1) = false := by simp [hplain]
        simp only [hcond, Bool.false_eq_true, if_false]
        cases hchk : check_trusted_commitment_valid env hp idx txo0 cm0 flag with
        | mk fst snd =>
          cases fst with
          | some e => simp
          | none =>
            simp only
            have := ih (idx + 1) snd k txo cm hget hconf
            rw [Nat.add_assoc, Nat.add_comm 1 k] at this
            exact this hgen

/-- The HMAC component check holds exactly when the master-key HMAC primitive
succeeds and returns the stored HMAC bytes. -/
theorem hmac_check_iff (env : Env) (cm : Commitment) :
    hmac_check env cm = true
      ↔ env.wallet_hmac_with_master_key (cm.asset_generator ++ cm.value_commitment
          ++ cm.asset_id ++ u64_to_le cm.value) = some cm.hmac := by
  unfold hmac_check
  cases hh : env.wallet_hmac_with_master_key (cm.asset_generator ++ cm.value_commitment
      ++ cm.asset_id ++ u64_to_le cm.value) with
  | none => simp
  | some h => simp

/-- A fixed concrete environment used by the witness sessions below. -/
def envT : Env where
  wallet_get_blinding_factor := fun _ _ _ => some [7]
  wally_asset_generator_from_bytes := fun aid _ => some (10 :: aid)
  wally_asset_value_commitment := fun v _ _ => some [20, v]
  wallet_hmac_with_master_key := fun blob => some [blob.length]
  sha256 := fun b => [b.length]
  wally_tx_confidential_value_to_satoshi := fun v => v.headD 0
  wallet_get_elements_tx_input_hash := fun _ _ _ _ => some [1]
  wallet_get_signer_commitment := fun _ _ _ => some [2]
  get_script_flavour := fun _ => 0
  update_aggregate_scripts_flavour := fun a _ => a
  validate_change_paths_ok := true
  sha_starts_ok := true
  network_type_restriction := .NONE
  accept_outputs := true
  accept_fee := true

/-- A confidential output / commitment pair that passes all checks under
`envT` with no value-commitment mismatch. -/
def cm_ok : Commitment :=
  { have_commitments := true, asset_id := [1], value := 5, blinding_key := [3],
    asset_generator := [10, 1], value_commitment := [20, 5], hmac := [13] }

def txo_ok : TxOutput := { asset := [10, 1], value := [20, 5], script := none }

/-- A confidential output / commitment pair whose value commitment differs
from the recomputed one under `envT` (generator and HMAC checks still pass). -/
def cm_odd : Commitment :=
  { have_commitments := true, asset_id := [1], value := 5, blinding_key := [3],
    asset_generator := [10, 1], value_commitment := [21, 5], hmac := [13] }

def txo_odd : TxOutput := { asset := [10, 1], value := [21, 5], script := none }

/-- A commitment whose stored asset generator differs from the recomputed one
under `envT`. -/
def cm_bad : Commitment :=
  { have_commitments := true, asset_id := [1], value := 5, blinding_key := [3],
    asset_generator := [11, 1], value_commitment := [20, 5], hmac := [13] }

def txo_bad : TxOutput := { asset := [10, 1], value := [20, 5], script := none }

/-- C1: the per-output check tolerates the first value-commitment mismatch of a
session (setting the sticky `found_odd_vbf` flag) and fails every subsequent
one; consequently the re-verification loop accepts a session whose confidential
outputs all pass the other checks with at most one value-commitment mismatch,
and always rejects a session with two or more mismatches. -/
theorem claim_C1_value_commitment_exception (env : Env) (hp : Bytes) :
    (∀ (idx : Nat) (txo : TxOutput) (cm : Commitment),
      generator_check env hp idx txo cm = true →
      (recomputed_value_commitment env hp idx cm).isSome = true →
      hmac_check env cm = true →
      vbf_mismatch env hp idx txo cm = true →
      check_trusted_commitment_valid env hp idx txo cm false = (none, true)
        ∧ check_trusted_commitment_valid env hp idx txo cm true
            = (some "Failed to verify value_commitment from commitments data", true))
    ∧ (∀ (idx : Nat) (l : List (TxOutput × Commitment)),
        output_checks_ok env hp idx l = true →
        mismatch_count env hp idx l ≤ 1 →
        (verify_trusted_commitments env hp idx l false).1 = none)
    ∧ (∀ (idx : Nat) (l : List (TxOutput × Commitment)),
        2 ≤ mismatch_count env hp idx l →
        (verify_trusted_commitments env hp idx l false).1.isSome = true) := by
  refine ⟨fun idx txo cm hg hvs hhm hm => ⟨?_, ?_⟩,
    fun idx l hok hcnt => ?_, fun idx l hcnt => ?_⟩
  · rw [check_ok_of_checks env hp idx txo cm false hg hvs hhm (fun _ => rfl)]
    simp [hm]
  · rw [check_trusted_commitment_valid_char]
    have h1 : ¬ generator_check env hp idx txo cm = false := by simp [hg]
    have h2 : ¬ (recomputed_value_commitment env hp idx cm).isNone := by
      intro hn
      rw [Option.isNone_iff_eq_none] at hn
      rw [hn] at hvs
      simp at hvs
    simp [h1, h2, hm]
  · exact verify_ok_of_checks env hp l idx false hok (by simpa using hcnt)
  · exact verify_fails_of_mismatches env hp l idx false (by simpa using hcnt)

/-- Witness for C1: under `envT`, one mismatching output is tolerated exactly
when the flag is clear; a session with one mismatch passes the loop and a
session with two mismatches fails it. -/
theorem claim_C1_witness :
    (check_trusted_commitment_valid envT [0] 0 txo_odd cm_odd false = (none, true)
      ∧ check_trusted_commitment_valid envT [0] 0 txo_odd cm_odd true
          = (some "Failed to verify value_commitment from commitments data", true))
    ∧ (verify_trusted_commitments envT [0] 0 [(txo_ok, cm_ok), (txo_odd, cm_odd)] false).1 = none
    ∧ (verify_trusted_commitments envT [0] 0
        [(txo_odd, cm_odd), (txo_odd, cm_odd)] false).1.isSome = true := by
  refine ⟨(claim_C1_value_commitment_exception envT [0]).1 0 txo_odd cm_odd
      (by decide) (by decide) (by decide) (by decide),
    (claim_C1_value_commitment_exception envT [0]).2.1 0 _ (by decide) (by decide),
    (claim_C1_value_commitment_exception envT [0]).2.2 0 _ (by decide)⟩

/-- C2: an asset-generator mismatch (or failed recomputation) on a confidential
output always makes the per-output check fail with the generator error and the
sticky flag unchanged, whatever the exception-budget flag state, and makes the
re-verification loop reject the session. -/
theorem claim_C2_generator_mismatch_always_rejects (env : Env) (hp : Bytes) :
    (∀ (idx : Nat) (txo : TxOutput) (cm : Commitment) (flag : Bool),
      generator_check env hp idx txo cm = false →
      check_trusted_commitment_valid env hp idx txo cm flag
        = (some "Failed to verify asset_generator from commitments data", flag))
    ∧ (∀ (idx : Nat) (l : List (TxOutput × Commitment)) (flag : Bool) (j : Nat)
        (txo : TxOutput) (cm : Commitment),
        l.get? j = some (txo, cm) →
        ¬ value_prefix_byte txo = 1 →
        generator_check env hp (idx + j) txo cm = false →
        (verify_trusted_commitments env hp idx l flag).1.isSome = true) := by
  refine ⟨fun idx txo cm flag hg => ?_,
    fun idx l flag j txo cm hget hconf hg =>
      verify_fails_of_generator env hp l idx flag j txo cm hget hconf hg⟩
  rw [check_trusted_commitment_valid_char]
  simp [hg]

/-- Witness for C2: under `envT`, a stored generator that differs from the
recomputed one fails the check even with the exception budget unused or used,
and fails the whole loop. -/
theorem claim_C2_witness :
    check_trusted_commitment_valid envT [0] 0 txo_bad cm_bad true
      = (some "Failed to verify asset_generator from commitments data", true)
    ∧ (verify_trusted_commitments envT [0] 0
        [(txo_ok, cm_ok), (txo_bad, cm_bad)] false).1.isSome = true := by
  refine ⟨(claim_C2_generator_mismatch_always_rejects envT [0]).1 0 txo_bad cm_bad true
      (by decide),
    (claim_C2_generator_mismatch_always_rejects envT [0]).2 0 _ false 1 txo_bad cm_bad
      (by decide) (by decide) (by decide)⟩

/-- C3: for a confidential output that passes the generator check and whose
value-commitment stage does not reject, the per-output check succeeds exactly
when the master-key HMAC recomputed over
`asset_generator ++ value_commitment ++ asset_id ++ value(le64)` equals the
stored HMAC (an HMAC primitive failure or mismatch is never tolerated). -/
theorem claim_C3_hmac_mismatch_never_tolerated (env : Env) (hp : Bytes) (idx : Nat)
    (txo : TxOutput) (cm : Commitment) (flag : Bool)
    (hg : generator_check env hp idx txo cm = true)
    (hvs : (recomputed_value_commitment env hp idx cm).isSome = true)
    (hflag : vbf_mismatch env hp idx txo cm = true → flag = false) :
    (check_trusted_commitment_valid env hp idx txo cm flag).1 = none
      ↔ env.wallet_hmac_with_master_key (cm.asset_generator ++ cm.value_commitment
          ++ cm.asset_id ++ u64_to_le cm.value) = some cm.hmac := by
  rw [← hmac_check_iff]
  rw [check_trusted_commitment_valid_char]
  have h1 : ¬ generator_check env hp idx txo cm = false := by simp [hg]
  have h2 : ¬ (recomputed_value_commitment env hp idx cm).isNone := by
    intro hn
    rw [Option.isNone_iff_eq_none] at hn
    rw [hn] at hvs
    simp at hvs
  have h3 : ¬ (vbf_mismatch env hp idx txo cm && flag) = true := by
    intro hc
    rw [Bool.and_eq_true] at hc
    rw [hflag hc.1] at hc
    exact Bool.false_ne_true hc.2
  cases hh : hmac_check env cm with
  | false => simp [h1, h2, h3, hh]
  | true => simp [h1, h2, h3, hh]

/-- Witness for C3: under `envT`, the fully matching output passes exactly
because its stored HMAC equals the recomputed one. -/
theorem claim_C3_witness :
    (check_trusted_commitment_valid envT [0] 0 txo_ok cm_ok false).1 = none
      ↔ envT.wallet_hmac_with_master_key (cm_ok.asset_generator ++ cm_ok.value_commitment
          ++ cm_ok.asset_id ++ u64_to_le cm_ok.value) = some cm_ok.hmac :=
  claim_C3_hmac_mismatch_never_tolerated envT [0] 0 txo_ok cm_ok false
    (by decide) (by decide) (fun _ => rfl)

/-- C8 counterexample: under the precondition `isValidNetwork(network)` alone,
the confidential-address prefix and blech32 hrp lookups do not return a value
from their defined mappings for the valid network `mainnet`: their
`JADE_ASSERT(isLiquidNetwork(network))` fails (modelled as `none`), so the
claim as stated is false for these two prefix/hrp lookup functions. -/
theorem claim_C8_counterexample :
    isValidNetwork TAG_MAINNET = true
      ∧ networkToCAPrefixByte TAG_MAINNET = none
      ∧ networkToBlech32Hrp TAG_MAINNET = none := by decide

set_option maxRecDepth 100000 in
/-- C8 (amended): under `isValidNetwork(network)`, the lookups whose
precondition is validity (`isTestNetwork`, `isLiquidNetwork`,
`networkToVersion`, `networkToId`, the P2PKH/P2SH/bech32 prefix and hrp
lookups, minimum CSV blocks) each return a value from their defined mapping
and never reach their fallback else-branch (0, NULL, or SIZE_MAX); the
confidential-address prefix and blech32 hrp lookups additionally require
`isLiquidNetwork(network)`, and under that stronger precondition return
defined values; and `networkGetPolicyAsset` returns a non-NULL hard-coded
policy asset id on the three liquid networks. -/
theorem claim_C8_network_lookups_total (network : String)
    (hv : isValidNetwork network = true) :
    (network = TAG_MAINNET ∨ network = TAG_LIQUID ∨ network = TAG_TESTNET
      ∨ network = TAG_TESTNETLIQUID ∨ network = TAG_LOCALTEST ∨ network = TAG_LOCALTESTLIQUID)
    ∧ isTestNetwork network = some (isTestNetworkB network)
    ∧ isLiquidNetwork network = some (isLiquidNetworkB network)
    ∧ (networkToVersion network = some BIP32_VER_MAIN_PRIVATE
      ∨ networkToVersion network = some BIP32_VER_TEST_PRIVATE)
    ∧ (networkToId network = some WALLY_NETWORK_BITCOIN_MAINNET
      ∨ networkToId network = some WALLY_NETWORK_BITCOIN_TESTNET
      ∨ networkToId network = some WALLY_NETWORK_LIQUID
      ∨ networkToId network = some WALLY_NETWORK_LIQUID_TESTNET
      ∨ networkToId network = some WALLY_NETWORK_LIQUID_REGTEST)
    ∧ (networkToMinAllowedCsvBlocks network = some 25920
      ∨ networkToMinAllowedCsvBlocks network = some 65535
      ∨ networkToMinAllowedCsvBlocks network = some 144
      ∨ networkToMinAllowedCsvBlocks network = some 1440)
    ∧ networkToMinAllowedCsvBlocks network ≠ some SIZE_MAX
    ∧ (networkToP2PKHPrefixByte network = some WALLY_ADDRESS_VERSION_P2PKH_MAINNET
      ∨ networkToP2PKHPrefixByte network = some WALLY_ADDRESS_VERSION_P2PKH_TESTNET
      ∨ networkToP2PKHPrefixByte network = some WALLY_ADDRESS_VERSION_P2PKH_LIQUID
      ∨ networkToP2PKHPrefixByte network = some WALLY_ADDRESS_VERSION_P2PKH_LIQUID_TESTNET
      ∨ networkToP2PKHPrefixByte network = some WALLY_ADDRESS_VERSION_P2PKH_LIQUID_REGTEST)
    ∧ (networkToP2SHPrefixByte network = some WALLY_ADDRESS_VERSION_P2SH_MAINNET
      ∨ networkToP2SHPrefixByte network = some WALLY_ADDRESS_VERSION_P2SH_TESTNET
      ∨ networkToP2SHPrefixByte network = some WALLY_ADDRESS_VERSION_P2SH_LIQUID
      ∨ networkToP2SHPrefixByte network = some WALLY_ADDRESS_VERSION_P2SH_LIQUID_TESTNET
      ∨ networkToP2SHPrefixByte network = some WALLY_ADDRESS_VERSION_P2SH_LIQUID_REGTEST)
    ∧ networkToBech32Hrp network ≠ none ∧ networkToBech32Hrp network ≠ some none
    ∧ (isLiquidNetworkB network = true →
        (networkToCAPrefixByte network = some WALLY_CA_PREFIX_LIQUID
          ∨ networkToCAPrefixByte network = some WALLY_CA_PREFIX_LIQUID_TESTNET
          ∨ networkToCAPrefixByte network = some WALLY_CA_PREFIX_LIQUID_REGTEST)
        ∧ networkToBlech32Hrp network ≠ none ∧ networkToBlech32Hrp network ≠ some none
        ∧ networkGetPolicyAsset network ≠ none ∧ networkGetPolicyAsset network ≠ some none) := by
  have hsix : network = TAG_MAINNET ∨ network = TAG_LIQUID ∨ network = TAG_TESTNET
      ∨ network = TAG_TESTNETLIQUID ∨ network = TAG_LOCALTEST
      ∨ network = TAG_LOCALTESTLIQUID := by
    simpa [isValidNetwork, or_assoc] using hv
  rcases hsix with h | h | h | h | h | h <;> subst h <;>
    exact ⟨by decide, by decide, by decide, by decide, by decide, by decide, by decide,
      by decide, by decide, by decide, by decide,
      fun hl => by first | exact absurd hl (by decide) | decide⟩

/-- Witness for C8: the liquid network takes the validity precondition and all
conclusions at a concrete valid input. -/
theorem claim_C8_witness :
    isTestNetwork TAG_LIQUID = some (isTestNetworkB TAG_LIQUID) :=
  (claim_C8_network_lookups_total TAG_LIQUID (by decide)).2.1

/-- C10: the keychain network-type restriction is monotone while a wallet is
loaded: a successful `keychain_set_network_type_restriction` leaves a non-NONE
restriction untouched, sets a NONE restriction to the test/main classification
of the passed network when key data is loaded, never overwrites a non-NONE
restriction across any sequence of calls, and
`keychain_is_network_type_consistent` holds exactly when the restriction is
NONE or matches the network's classification — so once pinned, every later
request for the other network type is inconsistent. -/
theorem claim_C10_network_restriction_monotone :
    (∀ (st : KeychainState) (network : String) (st2 : KeychainState),
      keychain_set_network_type_restriction st network = some st2 →
      st.network_type_restriction ≠ .NONE → st2 = st)
    ∧ (∀ (st : KeychainState) (network : String) (st2 : KeychainState),
        keychain_set_network_type_restriction st network = some st2 →
        st.network_type_restriction = .NONE → st.keychain_data = true →
        st2.network_type_restriction = network_type_of network)
    ∧ (∀ (st : KeychainState) (network : String) (b : Bool),
        keychain_is_network_type_consistent st network = some b →
        (b = true ↔ (st.network_type_restriction = .NONE
          ∨ network_type_of network = st.network_type_restriction)))
    ∧ (∀ (st : KeychainState) (ns : List String) (st2 : KeychainState),
        st.network_type_restriction ≠ .NONE →
        apply_restriction_calls st ns = some st2 →
        st2.network_type_restriction = st.network_type_restriction)
    ∧ (∀ (st : KeychainState) (network : String),
        st.network_type_restriction ≠ .NONE →
        isValidNetwork network = true →
        network_type_of network ≠ st.network_type_restriction →
        keychain_is_network_type_consistent st network = some false) := by
  have hmono : ∀ (st : KeychainState) (network : String) (st2 : KeychainState),
      keychain_set_network_type_restriction st network = some st2 →
      st.network_type_restriction ≠ .NONE → st2 = st := by
    intro st network st2 hset hne
    unfold keychain_set_network_type_restriction at hset
    cases hc : keychain_is_network_type_consistent st network with
    | none => rw [hc] at hset; exact absurd hset (by simp)
    | some b =>
      rw [hc] at hset
      cases b with
      | false => exact absurd hset (by simp)
      | true =>
        have hcond : (st.network_type_restriction == network_type_t.NONE) = false := by
          cases hb : st.network_type_restriction == network_type_t.NONE with
          | false => rfl
          | true => exact absurd (by simpa using hb) hne
        simp only [hcond, Bool.false_eq_true, if_false, Option.some.injEq] at hset
        exact hset.symm
  refine ⟨hmono, ?_, ?_, ?_, ?_⟩
  · intro st network st2 hset hnone hdata
    unfold keychain_set_network_type_restriction at hset
    cases hc : keychain_is_network_type_consistent st network with
    | none => rw [hc] at hset; exact absurd hset (by simp)
    | some b =>
      rw [hc] at hset
      cases b with
      | false => exact absurd hset (by simp)
      | true =>
        simp only [hnone, beq_self_eq_true, eq_self_iff_true, if_true] at hset
        cases ht : keychain_has_temporary st with
        | none => rw [ht] at hset; exact absurd hset (by simp)
        | some temp =>
          simp only [ht] at hset
          by_cases hst1 : (keychain_has_pin st && !temp) = true
          · simp only [hst1, eq_self_iff_true, if_true, hdata] at hset
            simp only [eq_self_iff_true, if_true, Option.some.injEq] at hset
            subst hset
            rfl
          · have hst1f : (keychain_has_pin st && !temp) = false := by
              cases hb : keychain_has_pin st && !temp with
              | false => rfl
              | true => exact absurd hb hst1
            simp only [hst1f, Bool.false_eq_true, if_false, hdata] at hset
            simp only [eq_self_iff_true, if_true, Option.some.injEq] at hset
            subst hset
            rfl
  · intro st network b hc
    unfold keychain_is_network_type_consistent at hc
    by_cases hv : isValidNetwork network = true
    · simp only [hv, if_true, Option.some.injEq] at hc
      subst hc
      constructor
      · intro hb
        rcases Bool.or_eq_true _ _ |>.mp hb with h | h
        · exact Or.inl (by simpa using h)
        · exact Or.inr (by simpa using h)
      · intro hor
        rcases hor with h | h
        · simp [h]
        · simp [h]
    · simp only [Bool.not_eq_true] at hv
      rw [hv] at hc
      simp at hc
  · have mono_list : ∀ (ns : List String) (st st2 : KeychainState),
        st.network_type_restriction ≠ .NONE →
        apply_restriction_calls st ns = some st2 →
        st2.network_type_restriction = st.network_type_restriction := by
      intro ns
      induction ns with
      | nil =>
        intro st st2 hne happ
        unfold apply_restriction_calls at happ
        simp only [Option.some.injEq] at happ
        rw [← happ]
      | cons n rest ih =>
        intro st st2 hne happ
        unfold apply_restriction_calls at happ
        cases hset : keychain_set_network_type_restriction st n with
        | none => rw [hset] at happ; exact absurd happ (by simp)
        | some st1 =>
          rw [hset] at happ
          have he : st1 = st := hmono st n st1 hset hne
          subst he
          exact ih _ st2 hne happ
    exact fun st ns st2 hne happ => mono_list ns st st2 hne happ
  · intro st network hne hv hty
    unfold keychain_is_network_type_consistent
    simp only [hv, if_true, Option.some.injEq]
    have h1 : (st.network_type_restriction == network_type_t.NONE) = false := by
      cases hb : st.network_type_restriction == network_type_t.NONE with
      | false => rfl
      | true => exact absurd (by simpa using hb) hne
    have h2 : (network_type_of network == st.network_type_restriction) = false := by
      cases hb : network_type_of network == st.network_type_restriction with
      | false => rfl
      | true => exact absurd (by simpa using hb) hty
    simp [h1, h2]

/-- A keychain state pinned to test networks with a loaded, persisted,
non-temporary wallet. -/
def stT : KeychainState :=
  { network_type_restriction := .TEST, keychain_data := true, keychain_temporary := false,
    has_encrypted_blob := true, storage_restriction := .TEST }

/-- A fresh keychain state with no restriction and a loaded wallet. -/
def stN : KeychainState :=
  { network_type_restriction := .NONE, keychain_data := true, keychain_temporary := false,
    has_encrypted_blob := true, storage_restriction := .NONE }

/-- Witness for C10 at concrete states: setting on a fresh state pins the
classification; a pinned state is never changed by later calls and rejects the
other network type. -/
theorem claim_C10_witness :
    (∀ st2, keychain_set_network_type_restriction stT TAG_TESTNET = some st2 → st2 = stT)
    ∧ (∀ st2, keychain_set_network_type_restriction stN TAG_TESTNET = some st2 →
        st2.network_type_restriction = network_type_of TAG_TESTNET)
    ∧ (∀ st2, apply_restriction_calls stT [TAG_TESTNET, TAG_LOCALTEST] = some st2 →
        st2.network_type_restriction = stT.network_type_restriction)
    ∧ keychain_is_network_type_consistent stT TAG_MAINNET = some false := by
  refine ⟨fun st2 h =>
      (claim_C10_network_restriction_monotone).1 stT TAG_TESTNET st2 h (by decide),
    fun st2 h =>
      (claim_C10_network_restriction_monotone).2.1 stN TAG_TESTNET st2 h (by decide) (by decide),
    fun st2 h =>
      (claim_C10_network_restriction_monotone).2.2.2.1 stT [TAG_TESTNET, TAG_LOCALTEST] st2
        (by decide) h,
    (claim_C10_network_restriction_monotone).2.2.2.2 stT TAG_MAINNET
      (by decide) (by decide) (by decide)⟩

/-! ## Transaction signing orchestrator (sign_liquid_tx_process) -/

/-- The CBOR-RPC error codes used by this flow (cbor_rpc.h, outside the given
sources; only their distinctness matters). -/
inductive ErrorCode where
  | bad_parameters
  | protocol_error
  | user_cancelled
  | internal_error
deriving DecidableEq

/-- Terminal outcome of one signing session.  `awaiting_host` models the
device parked in a blocking `jade_process_load_in_message` with no further
host message supplied. -/
inductive SessionOutcome where
  | rejected (code : ErrorCode) (msg : String)
  | success
  | awaiting_host
deriving DecidableEq

/-- One decoded `tx_input` phase message from the host.  Optional fields model
`rpc_has_field_data` / `rpc_get_*` results; a present-but-unparseable path is
modelled as `some []` (both reject identically). -/
structure HostMessage where
  kind : String
  msg_id : Bytes
  is_witness : Option Bool
  path : Option (List Nat)
  ae_host_commitment : Option Bytes
  script : Option Bytes
  value_commitment : Option Bytes
deriving DecidableEq, Inhabited

/-- State threaded through the input-streaming loop: messages loaded, bytes
fed to the prevout SHA-256 accumulator, the aggregate script flavour, and the
per-input anti-exfil replies already sent. -/
structure LoopState where
  consumed : Nat
  buffer : Bytes
  flavour : Nat
  ae_replies : Nat
deriving DecidableEq

/-- Result of the input-streaming loop. -/
inductive InputLoopResult where
  | failed (code : ErrorCode) (msg : String) (st : LoopState)
  | out_of_messages (st : LoopState)
  | done (st : LoopState)
deriving DecidableEq

/-- Observable result of one session. -/
structure SessionResult where
  outcome : SessionOutcome
  consumed : Nat
  fees : Nat
  hash_prevouts_double : Option Bytes
  ok_sent : Bool
  ae_replies : Nat
deriving DecidableEq

/-- A rejection before the output-confirmation checkpoint. -/
def mk_reject (c : ErrorCode) (msg : String) : SessionResult :=
  { outcome := .rejected c msg, consumed := 0, fees := 0, hash_prevouts_double := none,
    ok_sent := false, ae_replies := 0 }

/-- Modelled from the spec: the `CHECK_NETWORK_CONSISTENT` macro
(process_utils.h, not among the given sources) rejects unless a network string
was written, it is one of the known networks, and it is consistent with the
keychain's network-type restriction (keychain.c). -/
def check_network_consistent (restriction : network_type_t) (network : String)
    (written : Nat) : Bool :=
  written != 0 && isValidNetwork network
    && (restriction == .NONE || network_type_of network == restriction)

/-- Embedding of `add_confidential_output_info` (sign_liquid_tx.c): check the
trusted record is present and its commitment lengths match the transaction
fields, then overwrite the transaction output's asset/value bytes with the
trusted bytes (display-info copies are not modelled). -/
def add_confidential_output_info (cm : Commitment) (txo : TxOutput) :
    Except String TxOutput :=
  if !cm.have_commitments then .error "Missing commitments data for blinded output"
  else if txo.asset.length != ASSET_GENERATOR_LEN then
    .error "Failed to update tx asset_generator from commitments data"
  else if txo.value.length != ASSET_COMMITMENT_LEN then
    .error "Failed to update tx value_commitment from commitments data"
  else .ok { txo with asset := cm.asset_generator, value := cm.value_commitment }

/-- The satoshi value of an unblinded output as read by
`wally_tx_confidential_value_to_satoshi` into a uint64. -/
def tx_output_satoshi (env : Env) (txo : TxOutput) : Nat :=
  env.wally_tx_confidential_value_to_satoshi txo.value % 2 ^ 64

/-- Embedding of the output-info loop of `sign_liquid_tx_process`
(lines 271-294): accumulate fees from unblinded outputs with no script (uint64
arithmetic) and overwrite confidential outputs from their trusted commitments.
Returns the fee total and the updated output list. -/
def build_output_info (env : Env) :
    List (TxOutput × Commitment) → Nat → Except String (Nat × List TxOutput)
  | [], fees => .ok (fees, [])
  | (txo, cm) :: rest, fees =>
    if value_prefix_byte txo == 1 then
      let fees2 := if txo.script.isNone then (fees + tx_output_satoshi env txo) % 2 ^ 64
        else fees
      match build_output_info env rest fees2 with
      | .error e => .error e
      | .ok (f, outs) => .ok (f, txo :: outs)
    else
      match add_confidential_output_info cm txo with
      | .error e => .error e
      | .ok txo2 =>
        match build_output_info env rest fees with
        | .error e => .error e
        | .ok (f, outs) => .ok (f, txo2 :: outs)

/-- One iteration body of the input-streaming loop (sign_liquid_tx.c lines
337-471) after the message has been loaded: check the message kind and fields,
feed `txhash ++ le32(index)` of the referenced prevout into the accumulator,
and derive the signature hash / anti-exfil signer commitment when a path is
present. -/
def input_step (env : Env) (tx : Tx) (use_ae : Bool) (index : Nat) (m : HostMessage)
    (st : LoopState) : Except (ErrorCode × String) LoopState :=
  if m.kind != "tx_input" then
    .error (.protocol_error, "Unexpected message, expecting tx_input")
  else
    match m.is_witness with
    | none => .error (.bad_parameters, "Failed to extract is_witness from parameters")
    | some is_witness =>
      if m.path == some [] then
        .error (.bad_parameters, "Failed to extract valid path from parameters")
      else if m.path.isSome && use_ae
          && ((m.ae_host_commitment.getD []).length != WALLY_HOST_COMMITMENT_LEN) then
        .error (.bad_parameters, "Failed to extract valid host commitment from parameters")
      else if m.path.isSome && (m.script.getD []).isEmpty then
        .error (.bad_parameters, "Failed to extract script from parameters")
      else
        let flavour2 := if m.path.isSome then
            env.update_aggregate_scripts_flavour (env.get_script_flavour (m.script.getD []))
              st.flavour
          else st.flavour
        let input := tx.inputs.getD index default
        let buffer2 := st.buffer ++ input.txhash ++ value_to_le input.index
        if m.path.isSome && is_witness
            && ((m.value_commitment.getD []).length != ASSET_COMMITMENT_LEN) then
          .error (.bad_parameters, "Failed to extract value commitment from parameters")
        else
          let sign_result : Except (ErrorCode × String) Unit :=
            if m.path.isSome then
              match env.wallet_get_elements_tx_input_hash index is_witness (m.script.getD [])
                  (if is_witness then m.value_commitment else none) with
              | none => .error (.internal_error, "Failed to make tx input hash")
              | some sighash =>
                if use_ae then
                  match env.wallet_get_signer_commitment sighash (m.path.getD [])
                      (m.ae_host_commitment.getD []) with
                  | none => .error (.internal_error, "Failed to make ae signer commitment")
                  | some _ => .ok ()
                else .ok ()
            else .ok ()
          match sign_result with
          | .error e => .error e
          | .ok _ =>
            .ok { consumed := st.consumed, buffer := buffer2, flavour := flavour2,
                  ae_replies := st.ae_replies + (if use_ae then 1 else 0) }

/-- Embedding of the input-streaming loop (sign_liquid_tx.c lines 337-472):
run `num_inputs` iterations, each loading one message from the host stream.
Returns the loop result plus the messages not consumed by the loop. -/
def input_loop (env : Env) (tx : Tx) (use_ae : Bool) :
    Nat → Nat → List HostMessage → LoopState → InputLoopResult × List HostMessage
  | _, 0, msgs, st => (.done st, msgs)
  | _, _ + 1, [], st => (.out_of_messages st, [])
  | index, n + 1, m :: rest, st =>
    match input_step env tx use_ae index m { st with consumed := st.consumed + 1 } with
    | .error (c, s) => (.failed c s { st with consumed := st.consumed + 1 }, rest)
    | .ok st2 => input_loop env tx use_ae (index + 1) n rest st2

/-- The phase of `sign_liquid_tx_process` after the user accepted the outputs
(lines 324-556): stream the inputs, finalise the double-SHA256 prevout hash,
re-verify the trusted commitments, run the fee-confirmation checkpoint
(flushing one pending message first in anti-exfil mode on decline), and
dispatch the signature replies on success. -/
def sign_after_outputs_accepted (env : Env) (use_ae : Bool) (tx : Tx) (n : Nat)
    (fees : Nat) (outs2 : List TxOutput) (cms : List Commitment)
    (msgs : List HostMessage) : SessionResult :=
  match input_loop env tx use_ae 0 n msgs
      { consumed := 0, buffer := [], flavour := 0, ae_replies := 0 } with
  | (.failed c s st, _) =>
    { outcome := .rejected c s, consumed := st.consumed, fees := fees,
      hash_prevouts_double := none, ok_sent := true, ae_replies := st.ae_replies }
  | (.out_of_messages st, _) =>
    { outcome := .awaiting_host, consumed := st.consumed, fees := fees,
      hash_prevouts_double := none, ok_sent := true, ae_replies := st.ae_replies }
  | (.done st, rest) =>
    let hash_prevouts_double := env.sha256 (env.sha256 st.buffer)
    match verify_trusted_commitments env hash_prevouts_double 0 (outs2.zip cms) false with
    | (some e, _) =>
      { outcome := .rejected .bad_parameters e, consumed := st.consumed, fees := fees,
        hash_prevouts_double := some hash_prevouts_double, ok_sent := true,
        ae_replies := st.ae_replies }
    | (none, _) =>
      if !env.accept_fee then
        if use_ae then
          match rest with
          | [] =>
            { outcome := .awaiting_host, consumed := st.consumed, fees := fees,
              hash_prevouts_double := some hash_prevouts_double, ok_sent := true,
              ae_replies := st.ae_replies }
          | _ :: _ =>
            { outcome := .rejected .user_cancelled "User declined to sign transaction",
              consumed := st.consumed + 1, fees := fees,
              hash_prevouts_double := some hash_prevouts_double, ok_sent := true,
              ae_replies := st.ae_replies }
        else
          { outcome := .rejected .user_cancelled "User declined to sign transaction",
            consumed := st.consumed, fees := fees,
            hash_prevouts_double := some hash_prevouts_double, ok_sent := true,
            ae_replies := st.ae_replies }
      else
        { outcome := .success, consumed := st.consumed, fees := fees,
          hash_prevouts_double := some hash_prevouts_double, ok_sent := true,
          ae_replies := st.ae_replies }

/-- The decoded parameters of the initial `sign_liquid_tx` message.  `tx` is
the `wally_tx_from_bytes` parse result, `num_inputs` the `rpc_get_sizet`
result, `commitments` the `rpc_get_commitments_allocate` result (empty list =
extraction failure). -/
structure SignTxMsgParams where
  network : String
  network_written : Nat
  txn_len : Nat
  tx : Option Tx
  num_inputs : Option Nat
  commitments : List Commitment
  use_ae_signatures : Bool
  change_present : Bool

/-- Embedding of `sign_liquid_tx_process` (sign_liquid_tx.c): the linear
validation pass over the start message, the output-info extraction, the
output-confirmation checkpoint, and then `sign_after_outputs_accepted`.
mbedtls update/finish failures (internal-error rejections) are modelled as
never occurring; `sha_starts_ok` models `mbedtls_sha256_starts_ret`. -/
def sign_liquid_tx_process (env : Env) (p : SignTxMsgParams)
    (msgs : List HostMessage) : SessionResult :=
  if !check_network_consistent env.network_type_restriction p.network p.network_written then
    mk_reject .bad_parameters "CHECK_NETWORK_CONSISTENT failed"
  else if !isLiquidNetworkB p.network then
    mk_reject .bad_parameters "sign_liquid_tx call only appropriate for liquid network"
  else if p.txn_len == 0 then
    mk_reject .bad_parameters "Failed to extract txn from parameters"
  else
    match p.tx with
    | none => mk_reject .bad_parameters "Failed to extract tx from passed bytes"
    | some tx =>
      match p.num_inputs with
      | none => mk_reject .bad_parameters "Failed to extract valid number of inputs from parameters"
      | some num_inputs =>
        if num_inputs == 0 then
          mk_reject .bad_parameters "Failed to extract valid number of inputs from parameters"
        else if num_inputs != tx.inputs.length then
          mk_reject .bad_parameters "Unexpected number of inputs for transaction"
        else if p.commitments.length == 0 then
          mk_reject .bad_parameters "Failed to extract trusted commitments from parameters"
        else if p.commitments.length != tx.outputs.length then
          mk_reject .bad_parameters "Unexpected number of trusted commitments for transaction"
        else if p.change_present && !env.validate_change_paths_ok then
          mk_reject .bad_parameters "validate_change_paths failed"
        else if !env.sha_starts_ok then
          mk_reject .internal_error "Failed to initialise prevout hash"
        else
          match build_output_info env (tx.outputs.zip p.commitments) 0 with
          | .error e => mk_reject .bad_parameters e
          | .ok (fees, outs2) =>
            if !env.accept_outputs then
              { mk_reject .user_cancelled "User declined to sign transaction" with
                  fees := fees }
            else
              sign_after_outputs_accepted env p.use_ae_signatures tx num_inputs fees outs2
                p.commitments msgs

/-- The bytes every input contributes to the prevout accumulator, in input
order: 32-byte previous txid then 4-byte little-endian previous-output index. -/
def prevout_contributions (tx : Tx) : Bytes :=
  (tx.inputs.map (fun i => i.txhash ++ value_to_le i.index)).flatten

/-- The satoshi sum over exactly the plaintext (prefix byte 0x01) outputs with
no spending script. -/
def fee_sum (env : Env) (outs : List TxOutput) : Nat :=
  ((outs.filter (fun o => value_prefix_byte o == 1 && o.script.isNone)).map
    (tx_output_satoshi env)).sum

/-- A message of the wrong kind makes the loop body fail with protocol-error
before anything else is examined. -/
theorem input_step_wrong_kind (env : Env) (tx : Tx) (use_ae : Bool) (index : Nat)
    (m : HostMessage) (st : LoopState) (hk : m.kind ≠ "tx_input") :
    input_step env tx use_ae index m st
      = .error (.protocol_error, "Unexpected message, expecting tx_input") := by
  unfold input_step
  have hb : (m.kind != "tx_input") = true := by simp [hk]
  rw [if_pos hb]

/-- A successful loop body consumed no extra messages itself, appended exactly
`txhash ++ le32(index)` of the referenced prevout to the accumulator, was of
kind tx_input, and sent one anti-exfil reply when in anti-exfil mode. -/
theorem input_step_ok_facts (env : Env) (tx : Tx) (use_ae : Bool) (index : Nat)
    (m : HostMessage) (st st2 : LoopState)
    (h : input_step env tx use_ae index m st = .ok st2) :
    st2.consumed = st.consumed
      ∧ st2.buffer = st.buffer ++ (tx.inputs.getD index default).txhash
          ++ value_to_le (tx.inputs.getD index default).index
      ∧ m.kind = "tx_input"
      ∧ st2.ae_replies = st.ae_replies + (if use_ae then 1 else 0) := by
  unfold input_step at h
  repeat' split at h
  all_goals simp_all
  all_goals subst h
  all_goals simp_all

/-- The per-input prevout-accumulator contributions for `k` inputs starting at
`index`. -/
def contributions_range (tx : Tx) : Nat → Nat → Bytes
  | _, 0 => []
  | index, k + 1 =>
    (tx.inputs.getD index default).txhash ++ value_to_le (tx.inputs.getD index default).index
      ++ contributions_range tx (index + 1) k

/-- A completed input loop consumed exactly its fuel in messages, appended the
per-input contributions in order, left the rest of the stream untouched, and
every message it received was of kind tx_input. -/
theorem input_loop_done_facts (env : Env) (tx : Tx) (use_ae : Bool) :
    ∀ (k index : Nat) (msgs : List HostMessage) (st st2 : LoopState)
      (rest : List HostMessage),
      input_loop env tx use_ae index k msgs st = (.done st2, rest) →
      st2.consumed = st.consumed + k
        ∧ st2.buffer = st.buffer ++ contributions_range tx index k
        ∧ rest = msgs.drop k
        ∧ ∀ j, j < k → ∃ m, msgs.get? j = some m ∧ m.kind = "tx_input" := by
  intro k
  induction k with
  | zero =>
    intro index msgs st st2 rest h
    unfold input_loop at h
    simp only [Prod.mk.injEq, InputLoopResult.done.injEq] at h
    obtain ⟨h1, h2⟩ := h
    subst h1
    subst h2
    refine ⟨by omega, by simp [contributions_range], rfl, by omega⟩
  | succ n ih =>
    intro index msgs st st2 rest h
    cases msgs with
    | nil =>
      unfold input_loop at h
      simp at h
    | cons m0 mrest =>
      unfold input_loop at h
      cases hstep : input_step env tx use_ae index m0
          { st with consumed := st.consumed + 1 } with
      | error e =>
        obtain ⟨c, s⟩ := e
        rw [hstep] at h
        simp at h
      | ok st1 =>
        rw [hstep] at h
        simp only at h
        obtain ⟨h1, h2, h3, h4⟩ := input_step_ok_facts env tx use_ae index m0 _ st1 hstep
        obtain ⟨ih1, ih2, ih3, ih4⟩ := ih (index + 1) mrest st1 st2 rest h
        refine ⟨?_, ?_, ?_, ?_⟩
        · rw [ih1, h1]
          simp only
          omega
        · rw [ih2, h2]
          simp [contributions_range, List.append_assoc]
        · rw [ih3]
          rfl
        · intro j hj
          cases j with
          | zero => exact ⟨m0, rfl, h3⟩
          | succ i =>
            have := ih4 i (by omega)
            simpa using this

/-- If the first `k` messages stream fine and the next received message is not
of kind tx_input, the input loop fails with protocol-error after loading it. -/
theorem input_loop_wrong_kind (env : Env) (tx : Tx) (use_ae : Bool) :
    ∀ (k fuel index : Nat) (msgs : List HostMessage) (st st1 : LoopState)
      (m : HostMessage),
      k < fuel →
      input_loop env tx use_ae index k (msgs.take k) st = (.done st1, []) →
      msgs.get? k = some m →
      m.kind ≠ "tx_input" →
      input_loop env tx use_ae index fuel msgs st
        = (.failed .protocol_error "Unexpected message, expecting tx_input"
            { st1 with consumed := st1.consumed + 1 }, msgs.drop (k + 1)) := by
  intro k
  induction k with
  | zero =>
    intro fuel index msgs st st1 m hk hloop hget hkind
    unfold input_loop at hloop
    simp only [Prod.mk.injEq, InputLoopResult.done.injEq] at hloop
    obtain ⟨h1, _⟩ := hloop
    subst h1
    cases fuel with
    | zero => omega
    | succ f =>
      cases msgs with
      | nil => simp at hget
      | cons m0 rest =>
        simp only [List.get?_cons_zero, Option.some.injEq] at hget
        subst hget
        unfold input_loop
        rw [input_step_wrong_kind env tx use_ae index m0 _ hkind]
        rfl
  | succ n ih =>
    intro fuel index msgs st st1 m hk hloop hget hkind
    cases msgs with
    | nil => simp at hget
    | cons m0 rest =>
      simp only [List.take_succ_cons] at hloop
      unfold input_loop at hloop
      cases hstep : input_step env tx use_ae index m0
          { st with consumed := st.consumed + 1 } with
      | error e =>
        obtain ⟨c, s⟩ := e
        rw [hstep] at hloop
        simp at hloop
      | ok st0 =>
        rw [hstep] at hloop
        simp only at hloop
        cases fuel with
        | zero => omega
        | succ f =>
          unfold input_loop
          rw [hstep]
          simp only
          have hget2 : rest.get? n = some m := by simpa using hget
          exact ih f (index + 1) rest st0 st1 m (by omega) hloop hget2 hkind

/-- The per-input contributions over a dropped suffix. -/
theorem contributions_range_drop (tx : Tx) :
    ∀ (l : List TxInput) (index : Nat), tx.inputs.drop index = l →
      contributions_range tx index l.length
        = (l.map (fun i => i.txhash ++ value_to_le i.index)).flatten := by
  intro l
  induction l with
  | nil => intro index _; simp [contributions_range]
  | cons a l2 ih =>
    intro index hdrop
    have hget : tx.inputs[index]? = some a := by
      have := List.getElem?_drop tx.inputs index 0
      rw [hdrop] at this
      simpa using this.symm
    have hgetD : tx.inputs.getD index default = a := by
      simp [List.getD_eq_getElem?_getD, hget]
    have hdrop2 : tx.inputs.drop (index + 1) = l2 := by
      have := List.tail_drop tx.inputs index
      rw [hdrop] at this
      simpa using this.symm
    rw [List.length_cons]
    unfold contributions_range
    rw [hgetD, ih (index + 1) hdrop2]
    simp

/-- Over the whole input list, the accumulated contributions are exactly the
prevout contributions of the transaction. -/
theorem contributions_range_eq_prevout (tx : Tx) :
    contributions_range tx 0 tx.inputs.length = prevout_contributions tx := by
  unfold prevout_contributions
  exact contributions_range_drop tx tx.inputs 0 (by simp)

/-- Under the early-stage validation conditions and an accepted
output-confirmation checkpoint, the orchestrator reduces to the post-accept
phase. -/
theorem sign_process_reduction (env : Env) (p : SignTxMsgParams) (msgs : List HostMessage)
    (tx : Tx) (n fees : Nat) (outs2 : List TxOutput)
    (hnet : check_network_consistent env.network_type_restriction p.network
      p.network_written = true)
    (hliq : isLiquidNetworkB p.network = true)
    (htxn : p.txn_len ≠ 0)
    (htx : p.tx = some tx)
    (hn : p.num_inputs = some n)
    (hn0 : n ≠ 0)
    (hni : n = tx.inputs.length)
    (hc0 : p.commitments.length ≠ 0)
    (hcn : p.commitments.length = tx.outputs.length)
    (hchg : p.change_present = true → env.validate_change_paths_ok = true)
    (hsha : env.sha_starts_ok = true)
    (hbuild : build_output_info env (tx.outputs.zip p.commitments) 0 = .ok (fees, outs2))
    (hacc : env.accept_outputs = true) :
    sign_liquid_tx_process env p msgs
      = sign_after_outputs_accepted env p.use_ae_signatures tx n fees outs2
          p.commitments msgs := by
  have hch : (p.change_present && !env.validate_change_paths_ok) = false := by
    cases hcp : p.change_present with
    | false => rfl
    | true => simp [hchg hcp]
  have hb4 : (n == 0) = false := by simp [hn0]
  have hb5 : (n != tx.inputs.length) = false := by simp [hni]
  have hb6 : (p.commitments.length == 0) = false := by simp [hc0]
  have hb7 : (p.commitments.length != tx.outputs.length) = false := by simp [hcn]
  unfold sign_liquid_tx_process
  simp [hnet, hliq, htxn, htx, hn, hb4, hb5, hb6, hb7, hch, hsha, hbuild, hacc]

/-- Every run of the orchestrator either rejects before the ok-acknowledgement
(some rejection, with no message consumed and no hash finalised) or passes all
early-stage checks, the output-confirmation checkpoint, and reduces to the
post-accept phase. -/
theorem sign_process_shape (env : Env) (p : SignTxMsgParams) (msgs : List HostMessage) :
    (∃ c m fees0, sign_liquid_tx_process env p msgs
        = { mk_reject c m with fees := fees0 })
      ∨ ∃ tx n fees outs2,
        p.tx = some tx ∧ p.num_inputs = some n ∧ n ≠ 0 ∧ n = tx.inputs.length
          ∧ p.commitments.length ≠ 0 ∧ p.commitments.length = tx.outputs.length
          ∧ env.sha_starts_ok = true
          ∧ env.accept_outputs = true
          ∧ build_output_info env (tx.outputs.zip p.commitments) 0 = .ok (fees, outs2)
          ∧ sign_liquid_tx_process env p msgs
              = sign_after_outputs_accepted env p.use_ae_signatures tx n fees outs2
                  p.commitments msgs := by
  unfold sign_liquid_tx_process
  by_cases h1 : (!check_network_consistent env.network_type_restriction p.network
      p.network_written) = true
  · rw [if_pos h1]
    exact Or.inl ⟨_, _, 0, rfl⟩
  · rw [if_neg h1]
    by_cases h2 : (!isLiquidNetworkB p.network) = true
    · rw [if_pos h2]
      exact Or.inl ⟨_, _, 0, rfl⟩
    · rw [if_neg h2]
      by_cases h3 : (p.txn_len == 0) = true
      · rw [if_pos h3]
        exact Or.inl ⟨_, _, 0, rfl⟩
      · rw [if_neg h3]
        cases htx : p.tx with
        | none => exact Or.inl ⟨_, _, 0, rfl⟩
        | some tx =>
          simp only []
          cases hn : p.num_inputs with
          | none => exact Or.inl ⟨_, _, 0, rfl⟩
          | some n =>
            simp only []
            by_cases h4 : (n == 0) = true
            · rw [if_pos h4]
              exact Or.inl ⟨_, _, 0, rfl⟩
            · rw [if_neg h4]
              by_cases h5 : (n != tx.inputs.length) = true
              · rw [if_pos h5]
                exact Or.inl ⟨_, _, 0, rfl⟩
              · rw [if_neg h5]
                by_cases h6 : (p.commitments.length == 0) = true
                · rw [if_pos h6]
                  exact Or.inl ⟨_, _, 0, rfl⟩
                · rw [if_neg h6]
                  by_cases h7 : (p.commitments.length != tx.outputs.length) = true
                  · rw [if_pos h7]
                    exact Or.inl ⟨_, _, 0, rfl⟩
                  · rw [if_neg h7]
                    by_cases h8 : (p.change_present && !env.validate_change_paths_ok) = true
                    · rw [if_pos h8]
                      exact Or.inl ⟨_, _, 0, rfl⟩
                    · rw [if_neg h8]
                      by_cases h9 : (!env.sha_starts_ok) = true
                      · rw [if_pos h9]
                        exact Or.inl ⟨_, _, 0, rfl⟩
                      · rw [if_neg h9]
                        cases hb : build_output_info env (tx.outputs.zip p.commitments) 0 with
                        | error e => exact Or.inl ⟨_, _, 0, rfl⟩
                        | ok fo =>
                          obtain ⟨fees, outs2⟩ := fo
                          simp only []
                          by_cases h10 : (!env.accept_outputs) = true
                          · rw [if_pos h10]
                            exact Or.inl ⟨.user_cancelled,
                              "User declined to sign transaction", fees, rfl⟩
                          · rw [if_neg h10]
                            refine Or.inr ⟨tx, n, fees, outs2, rfl, rfl, ?_, ?_, ?_, ?_,
                              ?_, ?_, hb, rfl⟩
                            · simpa using h4
                            · simpa using h5
                            · simpa using h6
                            · simpa using h7
                            · simpa using h9
                            · simpa using h10

/-- A failed input loop makes the post-accept phase reject with the loop's
error, after the loop's message consumption, with no finalised hash. -/
theorem sign_after_loop_failed (env : Env) (use_ae : Bool) (tx : Tx) (n fees : Nat)
    (outs2 : List TxOutput) (cms : List Commitment) (msgs : List HostMessage)
    (c : ErrorCode) (s : String) (st : LoopState) (rest : List HostMessage)
    (hl : input_loop env tx use_ae 0 n msgs
      { consumed := 0, buffer := [], flavour := 0, ae_replies := 0 } = (.failed c s st, rest)) :
    sign_after_outputs_accepted env use_ae tx n fees outs2 cms msgs
      = { outcome := .rejected c s, consumed := st.consumed, fees := fees,
          hash_prevouts_double := none, ok_sent := true, ae_replies := st.ae_replies } := by
  unfold sign_after_outputs_accepted
  rw [hl]

/-- Equation: the input loop ran out of host messages. -/
theorem sign_after_out_of_messages (env : Env) (use_ae : Bool) (tx : Tx) (n fees : Nat)
    (outs2 : List TxOutput) (cms : List Commitment) (msgs : List HostMessage)
    (st : LoopState) (rest : List HostMessage)
    (hl : input_loop env tx use_ae 0 n msgs
      { consumed := 0, buffer := [], flavour := 0, ae_replies := 0 }
      = (.out_of_messages st, rest)) :
    sign_after_outputs_accepted env use_ae tx n fees outs2 cms msgs
      = { outcome := .awaiting_host, consumed := st.consumed, fees := fees,
          hash_prevouts_double := none, ok_sent := true, ae_replies := st.ae_replies } := by
  unfold sign_after_outputs_accepted
  rw [hl]

/-- Equation: the commitment re-verification loop failed. -/
theorem sign_after_verify_failed (env : Env) (use_ae : Bool) (tx : Tx) (n fees : Nat)
    (outs2 : List TxOutput) (cms : List Commitment) (msgs : List HostMessage)
    (st : LoopState) (rest : List HostMessage) (e : String) (flag : Bool)
    (hl : input_loop env tx use_ae 0 n msgs
      { consumed := 0, buffer := [], flavour := 0, ae_replies := 0 } = (.done st, rest))
    (hv : verify_trusted_commitments env (env.sha256 (env.sha256 st.buffer)) 0
      (outs2.zip cms) false = (some e, flag)) :
    sign_after_outputs_accepted env use_ae tx n fees outs2 cms msgs
      = { outcome := .rejected .bad_parameters e, consumed := st.consumed, fees := fees,
          hash_prevouts_double := some (env.sha256 (env.sha256 st.buffer)),
          ok_sent := true, ae_replies := st.ae_replies } := by
  unfold sign_after_outputs_accepted
  rw [hl]
  simp only []
  rw [hv]

/-- Equation: fee declined in anti-exfil mode with no pending host message:
the device parks awaiting the message to reply on. -/
theorem sign_after_decline_blocked (env : Env) (tx : Tx) (n fees : Nat)
    (outs2 : List TxOutput) (cms : List Commitment) (msgs : List HostMessage)
    (st : LoopState)
    (hl : input_loop env tx true 0 n msgs
      { consumed := 0, buffer := [], flavour := 0, ae_replies := 0 } = (.done st, []))
    (hv : (verify_trusted_commitments env (env.sha256 (env.sha256 st.buffer)) 0
      (outs2.zip cms) false).1 = none)
    (hf : env.accept_fee = false) :
    sign_after_outputs_accepted env true tx n fees outs2 cms msgs
      = { outcome := .awaiting_host, consumed := st.consumed, fees := fees,
          hash_prevouts_double := some (env.sha256 (env.sha256 st.buffer)),
          ok_sent := true, ae_replies := st.ae_replies } := by
  unfold sign_after_outputs_accepted
  rw [hl]
  simp only []
  cases hvp : verify_trusted_commitments env (env.sha256 (env.sha256 st.buffer)) 0
      (outs2.zip cms) false with
  | mk o flag =>
    rw [hvp] at hv
    simp only [] at hv
    subst hv
    have haf : (!env.accept_fee) = true := by simp [hf]
    rw [if_pos haf]
    rfl

/-- Equation: fee accepted: the signature replies are dispatched. -/
theorem sign_after_ok (env : Env) (use_ae : Bool) (tx : Tx) (n fees : Nat)
    (outs2 : List TxOutput) (cms : List Commitment) (msgs : List HostMessage)
    (st : LoopState) (rest : List HostMessage)
    (hl : input_loop env tx use_ae 0 n msgs
      { consumed := 0, buffer := [], flavour := 0, ae_replies := 0 } = (.done st, rest))
    (hv : (verify_trusted_commitments env (env.sha256 (env.sha256 st.buffer)) 0
      (outs2.zip cms) false).1 = none)
    (hf : env.accept_fee = true) :
    sign_after_outputs_accepted env use_ae tx n fees outs2 cms msgs
      = { outcome := .success, consumed := st.consumed, fees := fees,
          hash_prevouts_double := some (env.sha256 (env.sha256 st.buffer)),
          ok_sent := true, ae_replies := st.ae_replies } := by
  unfold sign_after_outputs_accepted
  rw [hl]
  simp only []
  cases hvp : verify_trusted_commitments env (env.sha256 (env.sha256 st.buffer)) 0
      (outs2.zip cms) false with
  | mk o flag =>
    rw [hvp] at hv
    simp only [] at hv
    subst hv
    have haf : (!env.accept_fee) = false := by simp [hf]
    rw [if_neg (by simp [haf])]

/-- Declining the fee confirmation: in anti-exfil mode one further message is
loaded (the one the host is awaiting a reply on) and the single user-cancelled
rejection is sent on it; in legacy mode the rejection is sent without loading
any further message. -/
theorem sign_after_decline (env : Env) (use_ae : Bool) (tx : Tx) (n fees : Nat)
    (outs2 : List TxOutput) (cms : List Commitment) (msgs : List HostMessage)
    (st : LoopState) (rest : List HostMessage)
    (hl : input_loop env tx use_ae 0 n msgs
      { consumed := 0, buffer := [], flavour := 0, ae_replies := 0 } = (.done st, rest))
    (hv : (verify_trusted_commitments env (env.sha256 (env.sha256 st.buffer)) 0
      (outs2.zip cms) false).1 = none)
    (hf : env.accept_fee = false) :
    (use_ae = true → rest ≠ [] →
      sign_after_outputs_accepted env use_ae tx n fees outs2 cms msgs
        = { outcome := .rejected .user_cancelled "User declined to sign transaction",
            consumed := st.consumed + 1, fees := fees,
            hash_prevouts_double := some (env.sha256 (env.sha256 st.buffer)),
            ok_sent := true, ae_replies := st.ae_replies })
    ∧ (use_ae = false →
      sign_after_outputs_accepted env use_ae tx n fees outs2 cms msgs
        = { outcome := .rejected .user_cancelled "User declined to sign transaction",
            consumed := st.consumed, fees := fees,
            hash_prevouts_double := some (env.sha256 (env.sha256 st.buffer)),
            ok_sent := true, ae_replies := st.ae_replies }) := by
  constructor
  · intro hae hrest
    subst hae
    unfold sign_after_outputs_accepted
    rw [hl]
    simp only []
    cases hvp : verify_trusted_commitments env (env.sha256 (env.sha256 st.buffer)) 0
        (outs2.zip cms) false with
    | mk o flag =>
      rw [hvp] at hv
      simp only [] at hv
      subst hv
      have haf : (!env.accept_fee) = true := by simp [hf]
      rw [if_pos haf]
      simp only [if_true]
      cases rest with
      | nil => exact absurd rfl hrest
      | cons m0 r2 => rfl
  · intro hae
    subst hae
    unfold sign_after_outputs_accepted
    rw [hl]
    simp only []
    cases hvp : verify_trusted_commitments env (env.sha256 (env.sha256 st.buffer)) 0
        (outs2.zip cms) false with
    | mk o flag =>
      rw [hvp] at hv
      simp only [] at hv
      subst hv
      have haf : (!env.accept_fee) = true := by simp [hf]
      rw [if_pos haf]
      rfl

/-- A post-accept phase that ends in success required the fee-confirmation
checkpoint to accept, consumed exactly `n` messages, reported the fee total it
was given, and every message consumed was of kind tx_input. -/
theorem sign_after_success_facts (env : Env) (use_ae : Bool) (tx : Tx) (n fees : Nat)
    (outs2 : List TxOutput) (cms : List Commitment) (msgs : List HostMessage)
    (h : (sign_after_outputs_accepted env use_ae tx n fees outs2 cms msgs).outcome
      = .success) :
    env.accept_fee = true
      ∧ (sign_after_outputs_accepted env use_ae tx n fees outs2 cms msgs).consumed = n
      ∧ (sign_after_outputs_accepted env use_ae tx n fees outs2 cms msgs).fees = fees
      ∧ ∀ j, j < n → ∃ m, msgs.get? j = some m ∧ m.kind = "tx_input" := by
  cases hres : input_loop env tx use_ae 0 n msgs
      { consumed := 0, buffer := [], flavour := 0, ae_replies := 0 } with
  | mk res rest =>
    cases res with
    | failed c s st =>
      rw [sign_after_loop_failed env use_ae tx n fees outs2 cms msgs c s st rest hres] at h
      simp at h
    | out_of_messages st =>
      rw [sign_after_out_of_messages env use_ae tx n fees outs2 cms msgs st rest hres] at h
      simp at h
    | done st =>
      obtain ⟨hc, hb, hr, hk⟩ := input_loop_done_facts env tx use_ae n 0 msgs _ st rest hres
      cases hv : verify_trusted_commitments env (env.sha256 (env.sha256 st.buffer)) 0
          (outs2.zip cms) false with
      | mk o flag =>
        cases o with
        | some e =>
          rw [sign_after_verify_failed env use_ae tx n fees outs2 cms msgs st rest e flag
            hres hv] at h
          simp at h
        | none =>
          have hv1 : (verify_trusted_commitments env (env.sha256 (env.sha256 st.buffer)) 0
              (outs2.zip cms) false).1 = none := by rw [hv]
          cases haf : env.accept_fee with
          | false =>
            cases hae : use_ae with
            | true =>
              subst hae
              cases hrest : rest with
              | nil =>
                subst hrest
                rw [sign_after_decline_blocked env tx n fees outs2 cms msgs st hres hv1
                  haf] at h
                simp at h
              | cons m0 r2 =>
                rw [(sign_after_decline env true tx n fees outs2 cms msgs st rest hres hv1
                  haf).1 rfl (by simp [hrest])] at h
                simp at h
            | false =>
              subst hae
              rw [(sign_after_decline env false tx n fees outs2 cms msgs st rest hres hv1
                haf).2 rfl] at h
              simp at h
          | true =>
            rw [sign_after_ok env use_ae tx n fees outs2 cms msgs st rest hres hv1 haf]
            refine ⟨rfl, ?_, rfl, hk⟩
            have hcn2 : st.consumed = n := by simpa using hc
            simpa using hcn2

/-- A post-accept phase that finalised the prevout hash ran the input loop to
completion, and the hash is the double SHA-256 of the accumulated per-input
contributions. -/
theorem sign_after_hash_facts (env : Env) (use_ae : Bool) (tx : Tx) (n fees : Nat)
    (outs2 : List TxOutput) (cms : List Commitment) (msgs : List HostMessage) (h : Bytes)
    (hh : (sign_after_outputs_accepted env use_ae tx n fees outs2 cms msgs).hash_prevouts_double
      = some h) :
    ∃ st rest, input_loop env tx use_ae 0 n msgs
        { consumed := 0, buffer := [], flavour := 0, ae_replies := 0 } = (.done st, rest)
      ∧ st.buffer = contributions_range tx 0 n
      ∧ h = env.sha256 (env.sha256 st.buffer) := by
  cases hres : input_loop env tx use_ae 0 n msgs
      { consumed := 0, buffer := [], flavour := 0, ae_replies := 0 } with
  | mk res rest =>
    cases res with
    | failed c s st =>
      rw [sign_after_loop_failed env use_ae tx n fees outs2 cms msgs c s st rest hres] at hh
      simp at hh
    | out_of_messages st =>
      rw [sign_after_out_of_messages env use_ae tx n fees outs2 cms msgs st rest hres] at hh
      simp at hh
    | done st =>
      obtain ⟨hc, hb, hr, hk⟩ := input_loop_done_facts env tx use_ae n 0 msgs _ st rest hres
      have hbuf : st.buffer = contributions_range tx 0 n := by simpa using hb
      refine ⟨st, rest, rfl, hbuf, ?_⟩
      cases hv : verify_trusted_commitments env (env.sha256 (env.sha256 st.buffer)) 0
          (outs2.zip cms) false with
      | mk o flag =>
        cases o with
        | some e =>
          rw [sign_after_verify_failed env use_ae tx n fees outs2 cms msgs st rest e flag
            hres hv] at hh
          simpa using hh.symm
        | none =>
          have hv1 : (verify_trusted_commitments env (env.sha256 (env.sha256 st.buffer)) 0
              (outs2.zip cms) false).1 = none := by rw [hv]
          cases haf : env.accept_fee with
          | false =>
            cases hae : use_ae with
            | true =>
              subst hae
              cases hrest : rest with
              | nil =>
                subst hrest
                rw [sign_after_decline_blocked env tx n fees outs2 cms msgs st hres hv1
                  haf] at hh
                simpa using hh.symm
              | cons m0 r2 =>
                rw [(sign_after_decline env true tx n fees outs2 cms msgs st rest hres hv1
                  haf).1 rfl (by simp [hrest])] at hh
                simpa using hh.symm
            | false =>
              subst hae
              rw [(sign_after_decline env false tx n fees outs2 cms msgs st rest hres hv1
                haf).2 rfl] at hh
              simpa using hh.symm
          | true =>
            rw [sign_after_ok env use_ae tx n fees outs2 cms msgs st rest hres hv1 haf] at hh
            simpa using hh.symm

/-- Unfolding the fee filter over one output. -/
theorem fee_sum_cons (env : Env) (txo : TxOutput) (rest : List TxOutput) :
    fee_sum env (txo :: rest)
      = (if value_prefix_byte txo == 1 && txo.script.isNone then tx_output_satoshi env txo
          else 0) + fee_sum env rest := by
  unfold fee_sum
  by_cases hc : (value_prefix_byte txo == 1 && txo.script.isNone) = true
  · simp [List.filter_cons, hc]
  · have hcf : (value_prefix_byte txo == 1 && txo.script.isNone) = false := by
      cases hb : value_prefix_byte txo == 1 && txo.script.isNone with
      | false => rfl
      | true => exact absurd hb hc
    simp [List.filter_cons, hcf]

/-- The fee accumulator of the output-info loop computes the (uint64) sum of
the satoshi values of exactly the plaintext outputs with no script. -/
theorem build_output_info_fees (env : Env) :
    ∀ (l : List (TxOutput × Commitment)) (acc f : Nat) (outs : List TxOutput),
      acc < 2 ^ 64 →
      build_output_info env l acc = .ok (f, outs) →
      f = (acc + fee_sum env (l.map Prod.fst)) % 2 ^ 64 := by
  intro l
  induction l with
  | nil =>
    intro acc f outs hacc h
    unfold build_output_info at h
    simp only [Except.ok.injEq, Prod.mk.injEq] at h
    obtain ⟨h1, _⟩ := h
    subst h1
    simp only [fee_sum, List.map_nil, List.filter_nil, List.map_nil, List.sum_nil]
    omega
  | cons hd rest ih =>
    obtain ⟨txo, cm⟩ := hd
    intro acc f outs hacc h
    unfold build_output_info at h
    by_cases hp : (value_prefix_byte txo == 1) = true
    · rw [if_pos hp] at h
      simp only [] at h
      by_cases hs : txo.script.isNone = true
      · rw [if_pos hs] at h
        cases hb : build_output_info env rest ((acc + tx_output_satoshi env txo) % 2 ^ 64) with
        | error e => rw [hb] at h; simp at h
        | ok fo =>
          obtain ⟨f2, outs2⟩ := fo
          rw [hb] at h
          simp only [Except.ok.injEq, Prod.mk.injEq] at h
          obtain ⟨h1, _⟩ := h
          subst h1
          have hlt : (acc + tx_output_satoshi env txo) % 2 ^ 64 < 2 ^ 64 :=
            Nat.mod_lt _ (by norm_num)
          have := ih ((acc + tx_output_satoshi env txo) % 2 ^ 64) f2 outs2 hlt hb
          rw [this, List.map_cons, fee_sum_cons]
          rw [hp, hs]
          simp only [Bool.and_self, if_true]
          rw [Nat.mod_add_mod]
          ring_nf
      · have hsf : txo.script.isNone = false := by
          cases hb2 : txo.script.isNone with
          | false => rfl
          | true => exact absurd hb2 hs
        rw [hsf] at h
        simp only [Bool.false_eq_true, if_false] at h
        cases hb : build_output_info env rest acc with
        | error e => rw [hb] at h; simp at h
        | ok fo =>
          obtain ⟨f2, outs2⟩ := fo
          rw [hb] at h
          simp only [Except.ok.injEq, Prod.mk.injEq] at h
          obtain ⟨h1, _⟩ := h
          subst h1
          have := ih acc f2 outs2 hacc hb
          rw [this, List.map_cons, fee_sum_cons]
          rw [hp, hsf]
          simp
    · have hpf : (value_prefix_byte txo == 1) = false := by
        cases hb2 : value_prefix_byte txo == 1 with
        | false => rfl
        | true => exact absurd hb2 hp
      rw [hpf] at h
      simp only [Bool.false_eq_true, if_false] at h
      cases hadd : add_confidential_output_info cm txo with
      | error e => rw [hadd] at h; simp at h
      | ok txo2 =>
        rw [hadd] at h
        simp only [] at h
        cases hb : build_output_info env rest acc with
        | error e => rw [hb] at h; simp at h
        | ok fo =>
          obtain ⟨f2, outs2⟩ := fo
          rw [hb] at h
          simp only [Except.ok.injEq, Prod.mk.injEq] at h
          obtain ⟨h1, _⟩ := h
          subst h1
          have := ih acc f2 outs2 hacc hb
          rw [this, List.map_cons, fee_sum_cons]
          rw [hpf]
          simp

/-- C4: no signature reply is produced (the session never reaches the
signature-reply dispatch) unless the declared input count is nonzero and
matches the parsed transaction, the trusted-commitment count matches the
output count, and both confirmation checkpoints accepted; a violated count
check rejects with bad-parameters before any input message is consumed
(`mk_reject` has consumed = 0 and no ok acknowledgement sent). -/
theorem claim_C4_no_signature_without_checks (env : Env) (p : SignTxMsgParams)
    (msgs : List HostMessage) :
    ((sign_liquid_tx_process env p msgs).outcome = .success →
      ∃ tx n, p.tx = some tx ∧ p.num_inputs = some n ∧ n ≠ 0 ∧ n = tx.inputs.length
        ∧ p.commitments.length = tx.outputs.length
        ∧ env.accept_outputs = true ∧ env.accept_fee = true)
    ∧ (∀ (tx : Tx) (n : Nat),
        check_network_consistent env.network_type_restriction p.network
          p.network_written = true →
        isLiquidNetworkB p.network = true → p.txn_len ≠ 0 → p.tx = some tx →
        p.num_inputs = some n → n ≠ 0 → n ≠ tx.inputs.length →
        sign_liquid_tx_process env p msgs
          = mk_reject .bad_parameters "Unexpected number of inputs for transaction")
    ∧ (∀ (tx : Tx) (n : Nat),
        check_network_consistent env.network_type_restriction p.network
          p.network_written = true →
        isLiquidNetworkB p.network = true → p.txn_len ≠ 0 → p.tx = some tx →
        p.num_inputs = some n → n ≠ 0 → n = tx.inputs.length →
        p.commitments.length ≠ tx.outputs.length →
        ∃ m, sign_liquid_tx_process env p msgs = mk_reject .bad_parameters m)
    ∧ (∀ c m, (mk_reject c m).consumed = 0 ∧ (mk_reject c m).ok_sent = false) := by
  refine ⟨?_, ?_, ?_, fun c m => ⟨rfl, rfl⟩⟩
  · intro hs
    rcases sign_process_shape env p msgs with ⟨c, m, f0, he⟩
      | ⟨tx, n, fees, outs2, htx, hn, hn0, hni, hc0, hcn, hsha, hacc, hb, he⟩
    · rw [he] at hs
      simp [mk_reject] at hs
    · rw [he] at hs
      obtain ⟨hfee, _, _, _⟩ := sign_after_success_facts env p.use_ae_signatures tx n fees
        outs2 p.commitments msgs hs
      exact ⟨tx, n, htx, hn, hn0, hni, hcn, hacc, hfee⟩
  · intro tx n hnet hliq htxn htx hn hn0 hni
    have hb3 : (p.txn_len == 0) = false := by simp [htxn]
    have hb4 : (n == 0) = false := by simp [hn0]
    have hb5 : (n != tx.inputs.length) = true := by simp [hni]
    unfold sign_liquid_tx_process
    simp [hnet, hliq, hb3, htx, hn, hb4, hb5]
  · intro tx n hnet hliq htxn htx hn hn0 hni hcn
    have hb3 : (p.txn_len == 0) = false := by simp [htxn]
    have hb4 : (n == 0) = false := by simp [hn0]
    have hb5 : (n != tx.inputs.length) = false := by simp [hni]
    by_cases hc0 : p.commitments.length = 0
    · refine ⟨"Failed to extract trusted commitments from parameters", ?_⟩
      have hb6 : (p.commitments.length == 0) = true := by simp [hc0]
      unfold sign_liquid_tx_process
      simp [hnet, hliq, hb3, htx, hn, hb4, hb5, hb6]
    · refine ⟨"Unexpected number of trusted commitments for transaction", ?_⟩
      have hb6 : (p.commitments.length == 0) = false := by simp [hc0]
      have hb7 : (p.commitments.length != tx.outputs.length) = true := by simp [hcn]
      unfold sign_liquid_tx_process
      simp [hnet, hliq, hb3, htx, hn, hb4, hb5, hb6, hb7]

/-- C5: whenever the prevout hash is finalised, it equals the double SHA-256
of the concatenation over all inputs, in order, of the 32-byte previous txid
followed by the 4-byte little-endian previous-output index — independently of
which inputs carry signing paths — and re-running any message stream over the
same transaction yields the identical hash. -/
theorem claim_C5_prevout_hash_accumulation (env : Env) (p : SignTxMsgParams)
    (msgs : List HostMessage) (tx : Tx) (htx : p.tx = some tx) :
    (∀ h, (sign_liquid_tx_process env p msgs).hash_prevouts_double = some h →
      h = env.sha256 (env.sha256 (prevout_contributions tx)))
    ∧ (∀ (msgs2 : List HostMessage) (h h2 : Bytes),
        (sign_liquid_tx_process env p msgs).hash_prevouts_double = some h →
        (sign_liquid_tx_process env p msgs2).hash_prevouts_double = some h2 →
        h = h2) := by
  have main : ∀ (msgs1 : List HostMessage) (h : Bytes),
      (sign_liquid_tx_process env p msgs1).hash_prevouts_double = some h →
      h = env.sha256 (env.sha256 (prevout_contributions tx)) := by
    intro msgs1 h hh
    rcases sign_process_shape env p msgs1 with ⟨c, m, f0, he⟩
      | ⟨tx2, n, fees, outs2, htx2, hn, hn0, hni, hc0, hcn, hsha, hacc, hb, he⟩
    · rw [he] at hh
      simp [mk_reject] at hh
    · have heq : tx2 = tx := by
        have h12 := htx.symm.trans htx2
        exact (Option.some.inj h12).symm
      subst heq
      rw [he] at hh
      obtain ⟨st, rest, hl, hbuf, hsha2⟩ := sign_after_hash_facts env p.use_ae_signatures
        tx2 n fees outs2 p.commitments msgs1 h hh
      rw [hsha2, hbuf, hni, contributions_range_eq_prevout]
  exact ⟨main msgs, fun msgs2 h h2 hh hh2 => (main msgs h hh).trans (main msgs2 h2 hh2).symm⟩

/-- C6: the fee total shown at the final confirmation of a successful session
is the (uint64) satoshi sum of exactly the plaintext (prefix 0x01) outputs
with no spending script; plaintext outputs with a script and confidential
outputs contribute nothing. -/
theorem claim_C6_fee_total (env : Env) (p : SignTxMsgParams) (msgs : List HostMessage)
    (tx : Tx) (htx : p.tx = some tx)
    (hs : (sign_liquid_tx_process env p msgs).outcome = .success) :
    (sign_liquid_tx_process env p msgs).fees = fee_sum env tx.outputs % 2 ^ 64
      ∧ (fee_sum env tx.outputs < 2 ^ 64 →
          (sign_liquid_tx_process env p msgs).fees = fee_sum env tx.outputs) := by
  rcases sign_process_shape env p msgs with ⟨c, m, f0, he⟩
    | ⟨tx2, n, fees, outs2, htx2, hn, hn0, hni, hc0, hcn, hsha, hacc, hb, he⟩
  · rw [he] at hs
    simp [mk_reject] at hs
  · have heq : tx2 = tx := by
      have h12 := htx.symm.trans htx2
      exact (Option.some.inj h12).symm
    subst heq
    rw [he] at hs ⊢
    obtain ⟨_, _, hfees, _⟩ := sign_after_success_facts env p.use_ae_signatures tx2 n fees
      outs2 p.commitments msgs hs
    have hzip : (tx2.outputs.zip p.commitments).map Prod.fst = tx2.outputs :=
      List.map_fst_zip _ _ (by omega)
    have hfe := build_output_info_fees env (tx2.outputs.zip p.commitments) 0 fees outs2
      (by norm_num) hb
    rw [hzip] at hfe
    constructor
    · rw [hfees, hfe]
      simp
    · intro hlt
      rw [hfees, hfe]
      simp only [Nat.zero_add]
      omega

/-- Modelled from the spec: after the input-streaming phase the only messages
the flow expects from the host are the signature-request messages of the
anti-exfil reply protocol (kind get_signature; handled by the signature-reply
component in sign_tx.c, which is not among the given sources); a message of
any other kind arrives out of the expected sequence and is rejected with
protocol-error (spec sections 6 and 7). -/
def dispatch_after_signing (m : HostMessage) : Option ErrorCode :=
  if m.kind == "get_signature" then none else some .protocol_error

/-- C7: a successful session consumed exactly num_inputs messages in the input
phase, all of kind tx_input; any received message of another kind during that
phase rejects the session with protocol-error (after loading exactly that one
extra message); and a surplus tx_input message beyond num_inputs, arriving
after the phase, is out of sequence and rejected with protocol-error. -/
theorem claim_C7_exactly_n_input_messages (env : Env) (p : SignTxMsgParams)
    (msgs : List HostMessage) :
    ((sign_liquid_tx_process env p msgs).outcome = .success →
      ∀ n, p.num_inputs = some n →
        (sign_liquid_tx_process env p msgs).consumed = n
          ∧ ∀ j, j < n → ∃ m, msgs.get? j = some m ∧ m.kind = "tx_input")
    ∧ (∀ (tx : Tx) (n fees : Nat) (outs2 : List TxOutput) (k : Nat) (st1 : LoopState)
        (m : HostMessage),
        check_network_consistent env.network_type_restriction p.network
          p.network_written = true →
        isLiquidNetworkB p.network = true → p.txn_len ≠ 0 → p.tx = some tx →
        p.num_inputs = some n → n ≠ 0 → n = tx.inputs.length →
        p.commitments.length ≠ 0 → p.commitments.length = tx.outputs.length →
        (p.change_present = true → env.validate_change_paths_ok = true) →
        env.sha_starts_ok = true →
        build_output_info env (tx.outputs.zip p.commitments) 0 = .ok (fees, outs2) →
        env.accept_outputs = true →
        k < n →
        input_loop env tx p.use_ae_signatures 0 k (msgs.take k)
          { consumed := 0, buffer := [], flavour := 0, ae_replies := 0 } = (.done st1, []) →
        msgs.get? k = some m →
        m.kind ≠ "tx_input" →
        (sign_liquid_tx_process env p msgs).outcome
            = .rejected .protocol_error "Unexpected message, expecting tx_input"
          ∧ (sign_liquid_tx_process env p msgs).consumed = k + 1)
    ∧ (∀ m : HostMessage, m.kind = "tx_input"
        → dispatch_after_signing m = some .protocol_error) := by
  refine ⟨?_, ?_, ?_⟩
  · intro hs n1 hn1
    rcases sign_process_shape env p msgs with ⟨c, m, f0, he⟩
      | ⟨tx, n, fees, outs2, htx, hn, hn0, hni, hc0, hcn, hsha, hacc, hb, he⟩
    · rw [he] at hs
      simp [mk_reject] at hs
    · have hneq : n1 = n := by
        have h12 := hn1.symm.trans hn
        exact Option.some.inj h12
      subst hneq
      rw [he] at hs ⊢
      obtain ⟨_, hcons, _, hkinds⟩ := sign_after_success_facts env p.use_ae_signatures tx n1
        fees outs2 p.commitments msgs hs
      exact ⟨hcons, hkinds⟩
  · intro tx n fees outs2 k st1 m hnet hliq htxn htx hn hn0 hni hc0 hcn hchg hsha hb hacc
      hk hloop hget hkind
    have hred := sign_process_reduction env p msgs tx n fees outs2 hnet hliq htxn htx hn
      hn0 hni hc0 hcn hchg hsha hb hacc
    rw [hred]
    obtain ⟨hc1, _, _, _⟩ := input_loop_done_facts env tx p.use_ae_signatures k 0
      (msgs.take k) _ st1 [] hloop
    have hfail := input_loop_wrong_kind env tx p.use_ae_signatures k n 0 msgs
      { consumed := 0, buffer := [], flavour := 0, ae_replies := 0 } st1 m hk hloop hget hkind
    rw [sign_after_loop_failed env p.use_ae_signatures tx n fees outs2 p.commitments msgs
      .protocol_error "Unexpected message, expecting tx_input"
      { st1 with consumed := st1.consumed + 1 } (msgs.drop (k + 1)) hfail]
    refine ⟨rfl, ?_⟩
    have hcons1 : st1.consumed = k := by simpa using hc1
    simp [hcons1]
  · intro m hm
    unfold dispatch_after_signing
    rw [hm]
    decide

/-- C9: when the user declines at the fee-confirmation checkpoint, in
anti-exfil mode the device first loads the message the host is awaiting a
reply on (one further message consumed) and sends the single user-cancelled
rejection on it; in legacy mode the rejection is sent without loading any
further message. -/
theorem claim_C9_fee_decline_flush (env : Env) (p : SignTxMsgParams)
    (msgs : List HostMessage) (tx : Tx) (n fees : Nat) (outs2 : List TxOutput)
    (st : LoopState) (rest : List HostMessage)
    (hnet : check_network_consistent env.network_type_restriction p.network
      p.network_written = true)
    (hliq : isLiquidNetworkB p.network = true)
    (htxn : p.txn_len ≠ 0)
    (htx : p.tx = some tx)
    (hn : p.num_inputs = some n)
    (hn0 : n ≠ 0)
    (hni : n = tx.inputs.length)
    (hc0 : p.commitments.length ≠ 0)
    (hcn : p.commitments.length = tx.outputs.length)
    (hchg : p.change_present = true → env.validate_change_paths_ok = true)
    (hsha : env.sha_starts_ok = true)
    (hb : build_output_info env (tx.outputs.zip p.commitments) 0 = .ok (fees, outs2))
    (hacc : env.accept_outputs = true)
    (hfee : env.accept_fee = false)
    (hl : input_loop env tx p.use_ae_signatures 0 n msgs
      { consumed := 0, buffer := [], flavour := 0, ae_replies := 0 } = (.done st, rest))
    (hv : (verify_trusted_commitments env (env.sha256 (env.sha256 st.buffer)) 0
      (outs2.zip p.commitments) false).1 = none) :
    (p.use_ae_signatures = true → rest ≠ [] →
      (sign_liquid_tx_process env p msgs).outcome
          = .rejected .user_cancelled "User declined to sign transaction"
        ∧ (sign_liquid_tx_process env p msgs).consumed = n + 1)
    ∧ (p.use_ae_signatures = false →
      (sign_liquid_tx_process env p msgs).outcome
          = .rejected .user_cancelled "User declined to sign transaction"
        ∧ (sign_liquid_tx_process env p msgs).consumed = n) := by
  have hred := sign_process_reduction env p msgs tx n fees outs2 hnet hliq htxn htx hn hn0
    hni hc0 hcn hchg hsha hb hacc
  obtain ⟨hc1, _, _, _⟩ := input_loop_done_facts env tx p.use_ae_signatures n 0 msgs _ st
    rest hl
  have hcons : st.consumed = n := by simpa using hc1
  obtain ⟨hae, hleg⟩ := sign_after_decline env p.use_ae_signatures tx n fees outs2
    p.commitments msgs st rest hl hv hfee
  constructor
  · intro h1 h2
    rw [hred, hae h1 h2]
    exact ⟨rfl, by simpa using hcons⟩
  · intro h1
    rw [hred, hleg h1]
    exact ⟨rfl, hcons⟩

/-- An absent trusted-commitment record (legal for unblinded outputs). -/
def cm_null : Commitment :=
  { have_commitments := false, asset_id := [], value := 0, blinding_key := [],
    asset_generator := [], value_commitment := [], hmac := [] }

/-- Witness transaction: one input, two plaintext outputs (one scripted
payment, one scriptless fee output). -/
def txW : Tx :=
  { inputs := [{ txhash := List.replicate 32 0, index := 1 }],
    outputs := [{ asset := [1, 2], value := [1, 9], script := some [5] },
                { asset := [1, 3], value := [1, 7], script := none }] }

/-- A well-formed unsigned (no path) tx_input message. -/
def msgW : HostMessage :=
  { kind := "tx_input", msg_id := [1], is_witness := some false, path := none,
    ae_host_commitment := none, script := none, value_commitment := none }

/-- A message of the signature-request kind. -/
def msgGetSig : HostMessage := { msgW with kind := "get_signature" }

/-- Witness start-message parameters for a legacy-mode session over `txW`. -/
def pW : SignTxMsgParams :=
  { network := TAG_LIQUID, network_written := 6, txn_len := 10, tx := some txW,
    num_inputs := some 1, commitments := [cm_null, cm_null], use_ae_signatures := false,
    change_present := false }

/-- The same parameters with a wrong declared input count. -/
def pBad : SignTxMsgParams := { pW with num_inputs := some 2 }

/-- The same parameters in anti-exfil mode. -/
def pAe : SignTxMsgParams := { pW with use_ae_signatures := true }

/-- The witness environment with the fee confirmation declined. -/
def envTnoFee : Env := { envT with accept_fee := false }

/-- Loop state after streaming the single input of `txW` in anti-exfil mode. -/
def stW : LoopState :=
  { consumed := 1, buffer := List.replicate 32 0 ++ [1, 0, 0, 0], flavour := 0,
    ae_replies := 1 }

/-- Loop state after streaming the single input of `txW` in legacy mode. -/
def stL : LoopState :=
  { consumed := 1, buffer := List.replicate 32 0 ++ [1, 0, 0, 0], flavour := 0,
    ae_replies := 0 }

/-- Witness for C4: the concrete session satisfies all the necessary
conditions, and a wrong declared input count is rejected with bad-parameters
before any input is consumed. -/
theorem claim_C4_witness :
    (∃ tx n, pW.tx = some tx ∧ pW.num_inputs = some n ∧ n ≠ 0 ∧ n = tx.inputs.length
      ∧ pW.commitments.length = tx.outputs.length
      ∧ envT.accept_outputs = true ∧ envT.accept_fee = true)
    ∧ sign_liquid_tx_process envT pBad [msgW]
        = mk_reject .bad_parameters "Unexpected number of inputs for transaction" :=
  ⟨(claim_C4_no_signature_without_checks envT pW [msgW]).1 (by decide),
    (claim_C4_no_signature_without_checks envT pBad [msgW]).2.1 txW 2 (by decide)
      (by decide) (by decide) rfl rfl (by decide) (by decide)⟩

/-- Witness for C5: the finalised hash of the concrete session equals the
double hash of the input contributions. -/
theorem claim_C5_witness :
    [1] = envT.sha256 (envT.sha256 (prevout_contributions txW)) :=
  (claim_C5_prevout_hash_accumulation envT pW [msgW] txW rfl).1 [1] (by decide)

/-- Witness for C6: the concrete session reports the fee of the single
scriptless plaintext output. -/
theorem claim_C6_witness :
    (sign_liquid_tx_process envT pW [msgW]).fees = fee_sum envT txW.outputs % 2 ^ 64
      ∧ (fee_sum envT txW.outputs < 2 ^ 64 →
          (sign_liquid_tx_process envT pW [msgW]).fees = fee_sum envT txW.outputs) :=
  claim_C6_fee_total envT pW [msgW] txW rfl (by decide)

/-- Witness for C7: the successful concrete session consumed exactly one
tx_input message; a wrong-kind first message is rejected with protocol error
after one load; a surplus tx_input after the phase is out of sequence. -/
theorem claim_C7_witness :
    ((sign_liquid_tx_process envT pW [msgW]).consumed = 1
      ∧ ∀ j, j < 1 → ∃ m, [msgW].get? j = some m ∧ m.kind = "tx_input")
    ∧ ((sign_liquid_tx_process envT pW [msgGetSig]).outcome
          = .rejected .protocol_error "Unexpected message, expecting tx_input"
        ∧ (sign_liquid_tx_process envT pW [msgGetSig]).consumed = 1)
    ∧ dispatch_after_signing msgW = some .protocol_error :=
  ⟨(claim_C7_exactly_n_input_messages envT pW [msgW]).1 (by decide) 1 rfl,
    (claim_C7_exactly_n_input_messages envT pW [msgGetSig]).2.1 txW 1 1 txW.outputs 0
      { consumed := 0, buffer := [], flavour := 0, ae_replies := 0 } msgGetSig
      (by decide) (by decide) (by decide) rfl rfl (by decide) (by decide) (by decide)
      (by decide) (fun _ => rfl) rfl rfl (by decide) (by decide) rfl rfl (by decide),
    (claim_C7_exactly_n_input_messages envT pW []).2.2 msgW rfl⟩

/-- Witness for C9: in anti-exfil mode the decline consumes the pending
message before the user-cancelled rejection (two loads for one input); in
legacy mode no further message is loaded. -/
theorem claim_C9_witness :
    ((sign_liquid_tx_process envTnoFee pAe [msgW, msgGetSig]).outcome
        = .rejected .user_cancelled "User declined to sign transaction"
      ∧ (sign_liquid_tx_process envTnoFee pAe [msgW, msgGetSig]).consumed = 1 + 1)
    ∧ ((sign_liquid_tx_process envTnoFee pW [msgW]).outcome
        = .rejected .user_cancelled "User declined to sign transaction"
      ∧ (sign_liquid_tx_process envTnoFee pW [msgW]).consumed = 1) :=
  ⟨(claim_C9_fee_decline_flush envTnoFee pAe [msgW, msgGetSig] txW 1 1 txW.outputs stW
      [msgGetSig] (by decide) (by decide) (by decide) rfl rfl (by decide) (by decide)
      (by decide) (by decide) (fun _ => rfl) rfl rfl rfl rfl (by decide)
      (by decide)).1 rfl (by decide),
    (claim_C9_fee_decline_flush envTnoFee pW [msgW] txW 1 1 txW.outputs stL []
      (by decide) (by decide) (by decide) rfl rfl (by decide) (by decide)
      (by decide) (by decide) (fun _ => rfl) rfl rfl rfl rfl (by decide)
      (by decide)).2 rfl⟩

end Jade
